import Mathlib

/-!
# Setup tool (`setup-tool/main.go`): a shallow embedding

Go strings are immutable byte sequences: `len` counts bytes and slicing cuts
bytes.  They are embedded as lists of bytes.  The standard-library routines
the program calls (`base64.StdEncoding.EncodeToString`, `strings.ReplaceAll`,
`strings.TrimSpace`, `strings.ToLower`, `bufio.Reader.ReadString`) are
embedded next to the functions of `main.go` that use them.
-/

namespace SetupTool

/-! ## Bytes and strings -/

/-- A byte, Go `byte` (`uint8`). -/
abbrev Byte := Fin 256

/-- A Go `string` (also `[]byte`): a finite sequence of bytes. -/
abbrev GoString := List Byte

/-- Go `utf8.AppendRune` on a code point: the UTF-8 bytes of `r`; surrogates
and values above U+10FFFF are encoded as U+FFFD. -/
def encodeRune (r : Nat) : GoString :=
  if r < 0x80 then [Fin.ofNat r]
  else if r < 0x800 then [Fin.ofNat (0xC0 + r / 64), Fin.ofNat (0x80 + r % 64)]
  else if r > 0x10FFFF ∨ (0xD800 ≤ r ∧ r ≤ 0xDFFF) then [0xEF, 0xBF, 0xBD]
  else if r < 0x10000 then
    [Fin.ofNat (0xE0 + r / 4096), Fin.ofNat (0x80 + r / 64 % 64), Fin.ofNat (0x80 + r % 64)]
  else
    [Fin.ofNat (0xF0 + r / 262144), Fin.ofNat (0x80 + r / 4096 % 64),
     Fin.ofNat (0x80 + r / 64 % 64), Fin.ofNat (0x80 + r % 64)]

/-- The bytes of a source-code string literal (Go source is UTF-8). -/
def str (s : String) : GoString :=
  s.toList.flatMap (fun c => encodeRune c.toNat)

/-! ## `encoding/base64`, `strings.ReplaceAll` -/

/-- The alphabet of `base64.StdEncoding` (`encodeStd`). -/
def encodeStd : GoString :=
  str "ABCDEFGHIJKLMNOPQRSTUVWXYZabcdefghijklmnopqrstuvwxyz0123456789+/"

/-- The padding character of `base64.StdEncoding` (`StdPadding`, `=`). -/
def stdPadding : Byte := 61

/-- Table lookup `enc.encode[v & 0x3F]`. -/
def encodeAt (v : Nat) : Byte :=
  encodeStd.getD (v % 64) 0

/-- Go `base64.StdEncoding.EncodeToString`: every full group of three bytes
gives four characters, one or two remaining bytes give two or three
characters followed by padding. -/
def encodeToString : List Byte → GoString
  | [] => []
  | [a] =>
      let val := a.val * 65536
      [encodeAt (val / 262144), encodeAt (val / 4096), stdPadding, stdPadding]
  | [a, b] =>
      let val := a.val * 65536 + b.val * 256
      [encodeAt (val / 262144), encodeAt (val / 4096), encodeAt (val / 64), stdPadding]
  | a :: b :: c :: rest =>
      let val := a.val * 65536 + b.val * 256 + c.val
      encodeAt (val / 262144) :: encodeAt (val / 4096) :: encodeAt (val / 64) ::
        encodeAt val :: encodeToString rest

/-- The scan of Go `strings.ReplaceAll(s, old, new)` for a non-empty `old`:
left to right, each non-overlapping occurrence of `old` is replaced by `new`.
`skip` counts the bytes of a matched occurrence still to be passed over. -/
def replaceAllAux (old new : GoString) : Nat → GoString → GoString
  | _, [] => []
  | skip + 1, _ :: t => replaceAllAux old new skip t
  | 0, c :: t =>
      if old.isPrefixOf (c :: t) then new ++ replaceAllAux old new (old.length - 1) t
      else c :: replaceAllAux old new 0 t

/-- Go `strings.ReplaceAll(s, old, new)`, for a non-empty `old`. -/
def replaceAll (s old new : GoString) : GoString :=
  replaceAllAux old new 0 s

/-! ## `generateSecret` -/

/-- The characters `generateSecret` removes from the encoded text, in the
order of the four `strings.ReplaceAll` calls: `=`, `+`, `/`, newline. -/
def stripEncoded (secret : GoString) : GoString :=
  let secret := replaceAll secret (str "=") []
  let secret := replaceAll secret (str "+") []
  let secret := replaceAll secret (str "/") []
  replaceAll secret (str "\n") []

/-- Go `generateSecret(length)`.  `randRead` is the outcome of
`rand.Read(bytes)` on the fresh buffer of `length` bytes: the filled buffer,
or the error with which the function panics. -/
def generateSecret (length : Nat) (randRead : Except GoString (List Byte)) :
    Except GoString GoString :=
  match randRead with
  | .error err => .error err
  | .ok bytes =>
      let secret := stripEncoded (encodeToString bytes)
      if secret.length > length then .ok (secret.take length) else .ok secret

/-- Capital letters, small letters and digits: `A-Z`, `a-z`, `0-9`. -/
def isAlnum (c : Byte) : Bool :=
  (65 ≤ c.val && c.val ≤ 90) || (97 ≤ c.val && c.val ≤ 122) || (48 ≤ c.val && c.val ≤ 57)

/-! ## `maskString` -/

/-- Go slice expression `s[lo:hi]` on a string: defined when
`0 ≤ lo ≤ hi ≤ len(s)`, a run-time panic (`none`) otherwise. -/
def slice (s : GoString) (lo hi : Int) : Option GoString :=
  if 0 ≤ lo ∧ lo ≤ hi ∧ hi ≤ (s.length : Int) then some ((s.take hi.toNat).drop lo.toNat)
  else none

/-- Go `maskString(s)`; `none` would be an out-of-range slice. -/
def maskString (s : GoString) : Option GoString :=
  if s.length ≤ 8 then some (str "****")
  else
    match slice s 0 4, slice s ((s.length : Int) - 4) s.length with
    | some first, some last => some (first ++ str "****" ++ last)
    | _, _ => none

/-! ## `unicode/utf8`, `unicode` -/

/-- Go `utf8.RuneError`, U+FFFD. -/
def runeError : Nat := 0xFFFD

/-- A UTF-8 continuation byte, `0x80..0xBF`. -/
def isCont (b : Byte) : Bool := 0x80 ≤ b.val && b.val ≤ 0xBF

/-- Go `utf8.DecodeRuneInString`: the first code point of `s` and its width in
bytes; `(RuneError, 1)` for an invalid or incomplete encoding (overlong forms,
surrogates and values above U+10FFFF are invalid), `(RuneError, 0)` for the
empty string. -/
def decodeRune : GoString → Nat × Nat
  | [] => (runeError, 0)
  | b0 :: rest =>
    if b0.val < 0x80 then (b0.val, 1)
    else if 0xC2 ≤ b0.val ∧ b0.val ≤ 0xDF then
      match rest with
      | b1 :: _ =>
        if isCont b1 then (b0.val % 32 * 64 + b1.val % 64, 2) else (runeError, 1)
      | _ => (runeError, 1)
    else if 0xE0 ≤ b0.val ∧ b0.val ≤ 0xEF then
      match rest with
      | b1 :: b2 :: _ =>
        if (if b0.val = 0xE0 then 0xA0 else 0x80) ≤ b1.val ∧
            b1.val ≤ (if b0.val = 0xED then 0x9F else 0xBF) ∧ isCont b2 then
          (b0.val % 16 * 4096 + b1.val % 64 * 64 + b2.val % 64, 3)
        else (runeError, 1)
      | _ => (runeError, 1)
    else if 0xF0 ≤ b0.val ∧ b0.val ≤ 0xF4 then
      match rest with
      | b1 :: b2 :: b3 :: _ =>
        if (if b0.val = 0xF0 then 0x90 else 0x80) ≤ b1.val ∧
            b1.val ≤ (if b0.val = 0xF4 then 0x8F else 0xBF) ∧ isCont b2 ∧ isCont b3 then
          (b0.val % 8 * 262144 + b1.val % 64 * 4096 + b2.val % 64 * 64 + b3.val % 64, 4)
        else (runeError, 1)
      | _ => (runeError, 1)
    else (runeError, 1)

/-- Go `utf8.RuneStart`: the byte is not a continuation byte. -/
def runeStart (b : Byte) : Bool := b.val / 64 != 2

/-- The backward scan of Go `utf8.DecodeLastRuneInString` for the start of the
last encoding: from `start` down to `lim`, stopping at a byte that can start
an encoding. -/
def lastRuneStart (s : GoString) (lim : Int) : Nat → Int → Int
  | 0, start => start
  | fuel + 1, start =>
    if start ≥ lim then
      if runeStart (s.getD start.toNat 0) then start
      else lastRuneStart s lim fuel (start - 1)
    else start

/-- Go `utf8.DecodeLastRuneInString`: the last code point of `s` and its
width. -/
def decodeLastRune (s : GoString) : Nat × Nat :=
  if s.length = 0 then (runeError, 0)
  else
    let last := s.getD (s.length - 1) 0
    if last.val < 0x80 then (last.val, 1)
    else
      let lim : Int := if (s.length : Int) - 4 < 0 then 0 else (s.length : Int) - 4
      let start := lastRuneStart s lim 4 ((s.length : Int) - 2)
      let start := if start < 0 then 0 else start
      let (r, size) := decodeRune (s.drop start.toNat)
      if start + (size : Int) ≠ (s.length : Int) then (runeError, 1) else (r, size)

/-- Go `unicode.IsSpace`: in Latin-1 the characters tab, newline, vertical
tab, form feed, carriage return, space, U+0085 and U+00A0; above it the code
points of the `White_Space` table. -/
def isSpace (r : Nat) : Bool :=
  if r ≤ 0xFF then
    r = 9 || r = 10 || r = 11 || r = 12 || r = 13 || r = 32 || r = 0x85 || r = 0xA0
  else
    r = 0x1680 || (0x2000 ≤ r && r ≤ 0x200A) || r = 0x2028 || r = 0x2029 || r = 0x202F ||
      r = 0x205F || r = 0x3000

/-! ## `strings.TrimSpace`, `strings.ToLower`, `bufio.Reader.ReadString` -/

/-- Go `strings.TrimLeftFunc(s, unicode.IsSpace)`: the leading white-space
code points are dropped one at a time. -/
def trimLeftSpace : Nat → GoString → GoString
  | 0, s => s
  | fuel + 1, s =>
    if s = [] then []
    else if isSpace (decodeRune s).1 then trimLeftSpace fuel (s.drop (decodeRune s).2)
    else s

/-- The loop of Go `strings.lastIndexFunc(s, unicode.IsSpace, false)`: the
byte index of the last code point that is not white space, `-1` when there is
none. -/
def lastIndexNotSpace (s : GoString) : Nat → Nat → Int
  | 0, _ => -1
  | fuel + 1, i =>
    if i = 0 then -1
    else
      let d := decodeLastRune (s.take i)
      if isSpace d.1 then lastIndexNotSpace s fuel (i - d.2) else ((i - d.2 : Nat) : Int)

/-- Go `strings.TrimRightFunc(s, unicode.IsSpace)`. -/
def trimRightSpace (s : GoString) : GoString :=
  let i := lastIndexNotSpace s s.length s.length
  if 0 ≤ i ∧ (s.getD i.toNat 0).val ≥ 0x80 then
    s.take (i.toNat + (decodeRune (s.drop i.toNat)).2)
  else s.take (i + 1).toNat

/-- The table `asciiSpace` of package `strings`. -/
def isAsciiSpace (c : Byte) : Bool :=
  c.val = 9 || c.val = 10 || c.val = 11 || c.val = 12 || c.val = 13 || c.val = 32

/-- The second loop of Go `strings.TrimSpace`, on the reversed remainder
`s[start:stop]`: trailing ASCII white space is dropped; a byte `≥ 0x80` hands
over to `TrimRightFunc`. -/
def trimSpaceEnd : List Byte → GoString
  | [] => []
  | c :: rest =>
    if c.val ≥ 0x80 then trimRightSpace (c :: rest).reverse
    else if isAsciiSpace c then trimSpaceEnd rest
    else (c :: rest).reverse

/-- Go `strings.TrimSpace`: leading and trailing white space removed.  The
first loop drops leading ASCII white space; a byte `≥ 0x80` hands over to
`TrimFunc(s[start:], unicode.IsSpace)`. -/
def trimSpace : GoString → GoString
  | [] => []
  | c :: rest =>
    if c.val ≥ 0x80 then
      trimRightSpace (trimLeftSpace (c :: rest).length (c :: rest))
    else if isAsciiSpace c then trimSpace rest
    else trimSpaceEnd (c :: rest).reverse

/-- Lower case of an ASCII byte: `A-Z` are moved to `a-z`. -/
def asciiLower (c : Byte) : Byte :=
  if 65 ≤ c.val ∧ c.val ≤ 90 then c + 32 else c

/-- Go `unicode.ToLower`: ASCII letters directly, every other code point
through the case table of package `unicode`, which is the parameter
`table`. -/
def unicodeToLower (table : Nat → Nat) (r : Nat) : Nat :=
  if r < 0x80 then (if 65 ≤ r ∧ r ≤ 90 then r + 32 else r) else table r

/-- Go `strings.Map(mapping, s)` for a mapping without negative results: the
code points of `s` are decoded (an invalid byte decodes to `RuneError`), mapped
and encoded again. -/
def mapRunes (mapping : Nat → Nat) : Nat → GoString → GoString
  | 0, _ => []
  | fuel + 1, s =>
    if s = [] then []
    else encodeRune (mapping (decodeRune s).1) ++ mapRunes mapping fuel (s.drop (decodeRune s).2)

/-- Go `strings.ToLower`: byte by byte on an ASCII-only string, through
`strings.Map(unicode.ToLower, s)` otherwise. -/
def toLower (table : Nat → Nat) (s : GoString) : GoString :=
  if s.all (fun c => c.val < 0x80) then s.map asciiLower
  else mapRunes (unicodeToLower table) s.length s

/-- Go `reader.ReadString(delim)` on the unread input: the bytes up to and
including the first `delim`, or all that is left when the input ends first
(the error is discarded by every caller); second component: the input left
unread. -/
def readString (delim : Byte) : GoString → GoString × GoString
  | [] => ([], [])
  | b :: rest =>
    if b = delim then ([b], rest)
    else (b :: (readString delim rest).1, (readString delim rest).2)

/-! ## Console output -/

def colorReset : GoString := str "\x1b[0m"
def colorRed : GoString := str "\x1b[31m"
def colorGreen : GoString := str "\x1b[32m"
def colorYellow : GoString := str "\x1b[33m"
def colorBlue : GoString := str "\x1b[34m"

/-- Text written by `printInfo(msg)`; `windows` is `runtime.GOOS == "windows"`. -/
def printInfo (windows : Bool) (msg : GoString) : GoString :=
  if windows then str "[INFO] " ++ msg ++ str "\n"
  else colorBlue ++ str "[ℹ] " ++ msg ++ colorReset ++ str "\n"

/-- Text written by `printSuccess(msg)`. -/
def printSuccess (windows : Bool) (msg : GoString) : GoString :=
  if windows then str "[SUCCESS] " ++ msg ++ str "\n"
  else colorGreen ++ str "[✓] " ++ msg ++ colorReset ++ str "\n"

/-- Text written by `printError(msg)`. -/
def printError (windows : Bool) (msg : GoString) : GoString :=
  if windows then str "[ERROR] " ++ msg ++ str "\n"
  else colorRed ++ str "[✗] " ++ msg ++ colorReset ++ str "\n"

/-- Text written by `printWarning(msg)`. -/
def printWarning (windows : Bool) (msg : GoString) : GoString :=
  if windows then str "[WARNING] " ++ msg ++ str "\n"
  else colorYellow ++ str "[⚠] " ++ msg ++ colorReset ++ str "\n"

/-- The lines written by `printBanner()`. -/
def printBanner : List GoString :=
  [str "\n",
   str "╔════════════════════════════════════════╗\n",
   str "║   HHHomes ERP - Setup Tool v1.0       ║\n",
   str "║   Construction Management System       ║\n",
   str "╚════════════════════════════════════════╝\n",
   str "\n"]

/-! ## Prompts -/

/-- Outcome of a prompt that may call `generateSecret`: the value, the input
left unread and the text written, or the panic of `generateSecret` (or of an
out-of-range slice) with the text written before it. -/
inductive Prompted where
  | value (v : GoString) (rest : GoString) (out : List GoString)
  | panic (err : GoString) (out : List GoString)
  deriving DecidableEq

/-- The message of a Go slice-bounds run-time panic. -/
def sliceBoundsPanic : GoString := str "runtime error: slice bounds out of range"

/-- Go `promptRequired(reader, prompt)`.  The `for` loop runs once per unit of
`fuel`; `none` when the fuel is used up before a non-empty answer.  Result:
the value, the input left unread, the text written. -/
def promptRequired (windows : Bool) (prompt : GoString) :
    Nat → GoString → Option (GoString × GoString × List GoString)
  | 0, _ => none
  | fuel + 1, stdin =>
    let input := trimSpace (readString 10 stdin).1
    if input ≠ [] then some (input, (readString 10 stdin).2, [prompt ++ str ": "])
    else
      match promptRequired windows prompt fuel (readString 10 stdin).2 with
      | none => none
      | some (v, rest, out) =>
        some (v, rest,
          (prompt ++ str ": ") :: printWarning windows (str "This field is required") :: out)

/-- Go `promptOptional(reader, prompt)`: the value, the input left unread, the
text written. -/
def promptOptional (prompt : GoString) (stdin : GoString) :
    GoString × GoString × List GoString :=
  (trimSpace (readString 10 stdin).1, (readString 10 stdin).2, [prompt ++ str ": "])

/-- Go `promptOrGenerate(reader, prompt, generate)`; `randRead` is the outcome
`rand.Read` has when `generateSecret(50)` is called. -/
def promptOrGenerate (windows : Bool) (stdin : GoString) (prompt : GoString) (generate : Bool)
    (randRead : Except GoString (List Byte)) : Prompted :=
  let input := trimSpace (readString 10 stdin).1
  let rest := (readString 10 stdin).2
  if input = [] ∧ generate = true then
    match generateSecret 50 randRead with
    | .error err => .panic err [prompt ++ str ": "]
    | .ok generated =>
      match maskString generated with
      | none => .panic sliceBoundsPanic [prompt ++ str ": "]
      | some masked =>
        .value generated rest
          [prompt ++ str ": ", printInfo windows (str "Generated: " ++ masked)]
  else .value input rest [prompt ++ str ": "]

/-- Go `confirm(reader, prompt)`: the answer, the input left unread, the text
written.  `table` is the case table used by `strings.ToLower`. -/
def confirm (table : Nat → Nat) (stdin : GoString) (prompt : GoString) :
    Bool × GoString × List GoString :=
  let input := toLower table (trimSpace (readString 10 stdin).1)
  (input == str "y" || input == str "yes", (readString 10 stdin).2, [prompt ++ str " (y/n): "])

/-! ## Effects -/

/-- An observable effect of a run, in program order. -/
inductive Event where
  /-- Text written to standard output. -/
  | stdout (text : GoString)
  /-- External process `exec.Command(name, args...).Run()`, with `cmd.Dir`. -/
  | exec (dir : Option GoString) (name : GoString) (args : List GoString)
  /-- Call `os.WriteFile(name, data, perm)`. -/
  | writeFile (name : GoString) (data : GoString) (perm : Nat)
  /-- Call `os.MkdirAll(path, perm)`. -/
  | mkdirAll (path : GoString) (perm : Nat)
  /-- The read of `waitForExit` on a fresh reader of standard input. -/
  | waitEnter
  deriving DecidableEq

/-- The event touches the file system. -/
def Event.isFileSystem : Event → Bool
  | .writeFile _ _ _ => true
  | .mkdirAll _ _ => true
  | _ => false

/-- How the process ends: `os.Exit(code)` (a return from `main` is code 0), or
a panic. -/
inductive Exit where
  | code (n : Nat)
  | panic (err : GoString)
  deriving DecidableEq

/-- A finished run. -/
structure Run where
  trace : List Event
  exit : Exit
  deriving DecidableEq

/-- Everything outside the program that a run depends on. -/
structure World where
  /-- Whether `runtime.GOOS == "windows"`. -/
  windows : Bool
  /-- The case table of package `unicode` for code points from U+0080 on. -/
  toLowerTable : Nat → Nat
  /-- The bytes waiting on standard input. -/
  stdin : GoString
  /-- Error of `docker version`, `none` when it ran and exited with 0. -/
  dockerVersion : Option GoString
  /-- Outcome of `os.Getwd()`. -/
  getwd : Except GoString GoString
  /-- Whether `fileExists(filepath.Join(workDir, "docker-compose.yml"))`. -/
  composeFileExists : GoString → Bool
  /-- Error of `rand.Read` in the `k`-th generatable prompt, if it fails. -/
  randFail : Nat → Option GoString
  /-- Byte `i` that `rand.Read` delivers in the `k`-th generatable prompt. -/
  randByte : Nat → Nat → Byte
  /-- Error of `os.WriteFile` on the given path, if it fails. -/
  writeFile : GoString → Option GoString
  /-- Error of the `k`-th `runCommand` of `deploy`, if it fails. -/
  command : Nat → Option GoString

/-- Outcome of `rand.Read` on a buffer of `n` bytes in the `k`-th generatable
prompt. -/
def World.randRead (w : World) (k n : Nat) : Except GoString (List Byte) :=
  match w.randFail k with
  | some err => .error err
  | none => .ok ((List.range n).map (w.randByte k))

/-- The events of `waitForExit()`. -/
def waitForExit : List Event :=
  [.stdout (str "\n"), .stdout (str "Press Enter to exit..."), .waitEnter]

/-- Go `filepath.Join` on clean relative path elements: the elements joined by
the separator of the platform. -/
def filepathJoin (windows : Bool) (elem : List GoString) : GoString :=
  (str (if windows then "\\" else "/")).intercalate elem

/-! ## Rendered files -/

/-- The collected configuration. -/
structure Config where
  dbPassword : GoString
  jwtSecret : GoString
  jwtRefreshSecret : GoString
  geminiKey : GoString
  domain : GoString
  email : GoString
  deriving DecidableEq

/-- Content of `.env` (`mainEnv` in `main`). -/
def mainEnv (c : Config) : GoString :=
  str "# Database Configuration\nDB_PASSWORD=" ++ c.dbPassword ++
  str "\nDATABASE_URL=postgresql://erpuser:" ++ c.dbPassword ++
  str "@postgres:5432/erp_production\n\n# JWT Configuration\nJWT_SECRET=" ++ c.jwtSecret ++
  str "\nJWT_REFRESH_SECRET=" ++ c.jwtRefreshSecret ++
  str "\n\n# SSL Configuration\nDOMAIN=" ++ c.domain ++
  str "\nEMAIL=" ++ c.email ++
  str "\n\n# Optional AI Configuration\nGEMINI_API_KEY=" ++ c.geminiKey ++ str "\n"

/-- Content of `apps/api/.env` (`apiEnv` in `main`). -/
def apiEnv (c : Config) : GoString :=
  str "NODE_ENV=production\nPORT=3001\n\n# Database\nDATABASE_URL=postgresql://erpuser:" ++
    c.dbPassword ++
  str "@postgres:5432/erp_production\n\n# JWT Secrets\nJWT_SECRET=" ++ c.jwtSecret ++
  str "\nJWT_REFRESH_SECRET=" ++ c.jwtRefreshSecret ++
  str "\n\n# Google Gemini API\nGEMINI_API_KEY=" ++ c.geminiKey ++
  str "\n\n# Uploads\nUPLOAD_DIR=/app/uploads\n"

/-- Content of `apps/web/.env.production` (`webEnv` in `main`). -/
def webEnv (c : Config) : GoString :=
  str "NEXT_PUBLIC_API_URL=https://api." ++ c.domain ++ str "\n"

/-- Path `apiEnvPath` of `main`. -/
def apiEnvPath (windows : Bool) : GoString :=
  filepathJoin windows [str "apps", str "api", str ".env"]

/-- Path `webEnvPath` of `main`. -/
def webEnvPath (windows : Bool) : GoString :=
  filepathJoin windows [str "apps", str "web", str ".env.production"]

/-! ## `deploy` -/

/-- Go `runCommand(dir, name, args...)`; `result` is the error of `cmd.Run()`,
if any. -/
def runCommand (windows : Bool) (dir name : GoString) (args : List GoString)
    (result : Option GoString) : List Event :=
  .exec (some dir) name args ::
    match result with
    | some err => [.stdout (printError windows (str "Command failed: " ++ err))]
    | none => []

/-- The countdown loop of `deploy`, `for i := n; i > 0; i--`. -/
def countdown : Nat → List Event
  | 0 => []
  | i + 1 =>
    .stdout (str "\r" ++ str (toString (i + 1)) ++ str "... ") ::
      .exec none (str "sleep") [str "1"] :: countdown i

/-- Go `deploy(workDir)`; `result k` is the error of the `k`-th `runCommand`,
if any. -/
def deploy (windows : Bool) (workDir : GoString) (result : Nat → Option GoString) :
    List Event :=
  [.stdout (printInfo windows (str "Starting deployment...")),
   .stdout (printInfo windows (str "Starting database..."))] ++
  runCommand windows workDir (str "docker") [str "compose", str "up", str "-d", str "postgres"]
    (result 0) ++
  [.stdout (printInfo windows (str "Waiting for database to be ready (15 seconds)..."))] ++
  countdown 15 ++
  [.stdout (str "\n"),
   .stdout (printInfo windows (str "Running database migrations..."))] ++
  runCommand windows workDir (str "docker")
    [str "compose", str "run", str "--rm", str "api", str "sh", str "-c",
     str "cd apps/api && npx prisma migrate deploy && npx prisma generate"] (result 1) ++
  [.stdout (printInfo windows (str "Starting all services..."))] ++
  runCommand windows workDir (str "docker") [str "compose", str "up", str "-d"] (result 2) ++
  [.stdout (printSuccess windows (str "Deployment complete!")),
   .stdout (str "\n"),
   .stdout (printInfo windows (str "Your application is starting up. Check status with:")),
   .stdout (str "  docker compose ps\n"),
   .stdout (str "  docker compose logs -f\n")]

/-! ## `main` -/

/-- The checks at the start of `main`: the events so far and the working
directory, or the run that ends in `os.Exit(1)`. -/
def preflight (w : World) : Except Run (GoString × List Event) :=
  let t := printBanner.map Event.stdout ++ [.exec none (str "docker") [str "version"]]
  match w.dockerVersion with
  | some _ =>
    .error ⟨t ++ [.stdout (printError w.windows (str "Docker is not installed or not running")),
        .stdout (str "Please install Docker Desktop and try again\n")] ++ waitForExit, .code 1⟩
  | none =>
    let t := t ++ [.stdout (printSuccess w.windows (str "Docker is installed and running"))]
    match w.getwd with
    | .error err =>
      .error ⟨t ++ [.stdout (printError w.windows
          (str "Failed to get current directory: " ++ err))] ++ waitForExit, .code 1⟩
    | .ok workDir =>
      if w.composeFileExists workDir = false then
        .error ⟨t ++ [.stdout (printError w.windows (str "docker-compose.yml not found!")),
          .stdout (str "Please run this tool from the construction-erp directory\n")] ++
          waitForExit, .code 1⟩
      else .ok (workDir, t)

/-- Outcome of the configuration prompts of `main`. -/
inductive Collected where
  | config (c : Config) (rest : GoString) (out : List GoString)
  | panic (err : GoString) (out : List GoString)
  deriving DecidableEq

/-- The six prompts of `main`, in order; `none` when a required prompt uses up
the fuel. -/
def collect (w : World) (fuel : Nat) : Option Collected :=
  let out0 := [str "\n", printInfo w.windows (str "=== Configuration ==="), str "\n"]
  match promptOrGenerate w.windows w.stdin (str "Database Password (press Enter to generate)")
      true (w.randRead 0 50) with
  | .panic err out => some (.panic err (out0 ++ out))
  | .value dbPassword rest1 out1 =>
  match promptOrGenerate w.windows rest1 (str "JWT Secret (press Enter to generate)")
      true (w.randRead 1 50) with
  | .panic err out => some (.panic err (out0 ++ out1 ++ out))
  | .value jwtSecret rest2 out2 =>
  match promptOrGenerate w.windows rest2 (str "JWT Refresh Secret (press Enter to generate)")
      true (w.randRead 2 50) with
  | .panic err out => some (.panic err (out0 ++ out1 ++ out2 ++ out))
  | .value jwtRefreshSecret rest3 out3 =>
  match promptOptional (str "Gemini API Key (optional, press Enter to skip)") rest3 with
  | (geminiKey, rest4, out4) =>
  match promptRequired w.windows (str "Domain name (e.g., example.com)") fuel rest4 with
  | none => none
  | some (domain, rest5, out5) =>
  match promptRequired w.windows (str "Email for SSL certificates") fuel rest5 with
  | none => none
  | some (email, rest6, out6) =>
    some (.config ⟨dbPassword, jwtSecret, jwtRefreshSecret, geminiKey, domain, email⟩ rest6
      (out0 ++ out1 ++ out2 ++ out3 ++ out4 ++ out5 ++ out6))

/-- The configuration summary of `main`: the text written, or the text
written before an out-of-range slice in `maskString`. -/
def summary (windows : Bool) (c : Config) : Except (List GoString) (List GoString) :=
  let out := [str "\n", printInfo windows (str "=== Configuration Summary ===")]
  match maskString c.dbPassword with
  | none => .error out
  | some m1 =>
  let out := out ++ [str "Database Password: " ++ m1 ++ str "\n"]
  match maskString c.jwtSecret with
  | none => .error out
  | some m2 =>
  let out := out ++ [str "JWT Secret: " ++ m2 ++ str "\n"]
  match maskString c.jwtRefreshSecret with
  | none => .error out
  | some m3 =>
  let out := out ++ [str "JWT Refresh Secret: " ++ m3 ++ str "\n"]
  let tail := [str "Domain: " ++ c.domain ++ str "\n", str "Email: " ++ c.email ++ str "\n",
    str "\n"]
  if c.geminiKey ≠ [] then
    match maskString c.geminiKey with
    | none => .error out
    | some m4 => .ok (out ++ [str "Gemini API Key: " ++ m4 ++ str "\n"] ++ tail)
  else .ok (out ++ [str "Gemini API Key: (not provided)\n"] ++ tail)

/-- The end of `main` after the files are written: the deployment prompt,
`deploy` or the closing hint, `waitForExit`, return. -/
def finish (w : World) (workDir : GoString) (rest : GoString) (t : List Event) : Run :=
  let t := t ++ [.stdout (printSuccess w.windows (str "Environment files created")),
    .stdout (str "\n")]
  let c := confirm w.toLowerTable rest (str "Start deployment now?")
  let t := t ++ c.2.2.map Event.stdout
  if c.1 = true then ⟨t ++ deploy w.windows workDir w.command ++ waitForExit, .code 0⟩
  else
    ⟨t ++ [.stdout (printInfo w.windows
      (str "Setup complete! Run 'docker compose up -d' when ready to start."))] ++
      waitForExit, .code 0⟩

/-- File emission in `main`: the three `os.WriteFile` calls, each fatal when
it fails. -/
def writeFiles (w : World) (workDir : GoString) (c : Config) (rest : GoString)
    (t : List Event) : Run :=
  let t := t ++ [.stdout (printInfo w.windows (str "Creating environment files...")),
    .writeFile (str ".env") (mainEnv c) 0o600]
  match w.writeFile (str ".env") with
  | some err =>
    ⟨t ++ [.stdout (printError w.windows (str "Failed to create .env: " ++ err))] ++
      waitForExit, .code 1⟩
  | none =>
  let t := t ++ [.mkdirAll (filepathJoin w.windows [str "apps", str "api"]) 0o755,
    .writeFile (apiEnvPath w.windows) (apiEnv c) 0o600]
  match w.writeFile (apiEnvPath w.windows) with
  | some err =>
    ⟨t ++ [.stdout (printError w.windows (str "Failed to create apps/api/.env: " ++ err))] ++
      waitForExit, .code 1⟩
  | none =>
  let t := t ++ [.mkdirAll (filepathJoin w.windows [str "apps", str "web"]) 0o755,
    .writeFile (webEnvPath w.windows) (webEnv c) 0o600]
  match w.writeFile (webEnvPath w.windows) with
  | some err =>
    ⟨t ++ [.stdout (printError w.windows
      (str "Failed to create apps/web/.env.production: " ++ err))] ++ waitForExit, .code 1⟩
  | none => finish w workDir rest t

/-- The part of `main` after the prompts: summary, confirmation, then the
files, or `os.Exit(0)` when the operator declines. -/
def confirmAndWrite (w : World) (workDir : GoString) (c : Config) (rest : GoString)
    (t : List Event) : Run :=
  match summary w.windows c with
  | .error out => ⟨t ++ out.map Event.stdout, .panic sliceBoundsPanic⟩
  | .ok out =>
    let t := t ++ out.map Event.stdout
    let ans := confirm w.toLowerTable rest (str "Continue with this configuration?")
    let t := t ++ ans.2.2.map Event.stdout
    if ans.1 = false then
      ⟨t ++ [.stdout (printInfo w.windows (str "Setup cancelled"))] ++ waitForExit, .code 0⟩
    else writeFiles w workDir c ans.2.1 t

/-- Go `main()`: the finished run, `none` when a required prompt uses up the
fuel. -/
def main (w : World) (fuel : Nat) : Option Run :=
  match preflight w with
  | .error run => some run
  | .ok (workDir, t) =>
    match collect w fuel with
    | none => none
    | some (.panic err out) => some ⟨t ++ out.map Event.stdout, .panic err⟩
    | some (.config c rest out) =>
      some (confirmAndWrite w workDir c rest (t ++ out.map Event.stdout))

/-! ## Vocabulary of the specification -/

/-- The ten spellings of `y` and `yes` in capital and small letters. -/
def affirmatives : List GoString :=
  [str "y", str "Y", str "yes", str "yeS", str "yEs", str "yES",
   str "Yes", str "YeS", str "YEs", str "YES"]

/-- The input left unread after `k` calls of `reader.ReadString('\n')`. -/
def unread : Nat → GoString → GoString
  | 0, stdin => stdin
  | k + 1, stdin => unread k (readString 10 stdin).2

/-- The line that call number `k` (from 0) of `reader.ReadString('\n')`
returns: the `k`-th response of the operator, with its line end. -/
def response (k : Nat) (stdin : GoString) : GoString :=
  (readString 10 (unread k stdin)).1

/-- A response without its line end (`\n` or `\r\n`): what the operator
typed. -/
def typed (line : GoString) : GoString :=
  let line := if line.getLast? = some 10 then line.dropLast else line
  if line.getLast? = some 13 then line.dropLast else line

/-- The `DATABASE_URL` line for a password, in the format the specification
gives. -/
def databaseUrlLine (password : GoString) : GoString :=
  str "DATABASE_URL=postgresql://erpuser:" ++ password ++ str "@postgres:5432/erp_production"

/-- The external command of an event: working directory and argument vector. -/
def Event.command : Event → Option (Option GoString × List GoString)
  | .exec dir name args => some (dir, name :: args)
  | _ => none

/-- The error line expected on standard output after a command that fails
with the error text `err`: the error marker of the platform, the words
`Command failed: `, the error text and a newline; nothing when the command
does not fail. -/
def commandFailed (windows : Bool) : Option GoString → List Event
  | some err =>
    [.stdout ((if windows then str "[ERROR] " else str "\x1b[31m[✗] ") ++
      str "Command failed: " ++ err ++ (if windows then str "\n" else str "\x1b[0m\n"))]
  | none => []

/-- The text of the deployment prompt, `confirm(reader, "Start deployment now?")`. -/
def deployPrompt : GoString := str "Start deployment now?" ++ str " (y/n): "

/-- The run of `main` aborts on the failing write of `path`: it ends with
`os.Exit(1)`; its trace ends with that write (of `data`), the error line on
standard output and `waitForExit`; the error line is the error marker of the
platform, `Failed to create `, the file name `name`, `: `, the error text
`err` and a newline; none of the files `later` is written, the deployment
prompt is not written and no command of `deploy` is run. -/
def AbortsOnWrite (w : World) (fuel : Nat) (path data name err : GoString)
    (later : List GoString) : Prop :=
  ∃ (r : Run) (pre : List Event),
    main w fuel = some r ∧ r.exit = .code 1 ∧
    r.trace = pre ++
      [.writeFile path data 0o600,
       .stdout ((if w.windows then str "[ERROR] " else str "\x1b[31m[✗] ") ++
         str "Failed to create " ++ name ++ str ": " ++ err ++
         (if w.windows then str "\n" else str "\x1b[0m\n"))] ++
      waitForExit ∧
    (∀ p ∈ later, ∀ data perm, Event.writeFile p data perm ∉ r.trace) ∧
    Event.stdout deployPrompt ∉ r.trace ∧
    (∀ dir name args, Event.exec (some dir) name args ∉ r.trace)

/-! ## Predicates on events, example worlds -/

/-- The event is not an error line: it is not text that starts with the
first four bytes of the error marker of the platform. -/
def notErrorLine (windows : Bool) (e : Event) : Bool :=
  match e with
  | .stdout x => x.take 4 != (if windows then str "[ERR" else str "\x1b[31")
  | _ => true

/-- An event of the part of a run before file emission: text other than the
deployment prompt, or a command run without a working directory. -/
def Event.isPreamble : Event → Bool
  | .stdout x => x != deployPrompt
  | .exec dir _ _ => dir.isNone
  | _ => false

/-- An event allowed in a run that aborts during file emission: text other
than the deployment prompt, a command run without a working directory, a
write to a file not in `later`, a directory creation, the final wait. -/
def Event.isQuiet (later : List GoString) : Event → Bool
  | .stdout x => x != deployPrompt
  | .exec dir _ _ => dir.isNone
  | .writeFile p _ _ => !later.contains p
  | _ => true

/-- A world for the examples: Docker runs, the compose file is there, the
operator types every value and declines at the end; no write is possible. -/
def declineWorld : World where
  windows := false
  toLowerTable := id
  stdin := str "pw123\njwt\nrefresh\n\nexample.com\nops@example.com\nn\n"
  dockerVersion := none
  getwd := .ok (str "/srv/erp")
  composeFileExists := fun _ => true
  randFail := fun _ => none
  randByte := fun _ _ => 0
  writeFile := fun _ => some (str "permission denied")
  command := fun _ => none

/-- A world for the examples: as `declineWorld`, but the operator confirms,
`.env` can be written and `apps/api/.env` cannot. -/
def apiWriteFailsWorld : World where
  windows := false
  toLowerTable := id
  stdin := str "pw123\njwt\nrefresh\n\nexample.com\nops@example.com\ny\ny\n"
  dockerVersion := none
  getwd := .ok (str "/srv/erp")
  composeFileExists := fun _ => true
  randFail := fun _ => none
  randByte := fun _ _ => 0
  writeFile := fun path => if path = str ".env" then none else some (str "permission denied")
  command := fun _ => none

/-- A world for the examples: the operator types every value, confirms and
starts the deployment; every file can be written; the migration command, the
second command of `deploy`, fails. -/
def migrationFailsWorld : World where
  windows := false
  toLowerTable := id
  stdin := str "pw123\njwt\nrefresh\n\nexample.com\nops@example.com\ny\nYes\n"
  dockerVersion := none
  getwd := .ok (str "/srv/erp")
  composeFileExists := fun _ => true
  randFail := fun _ => none
  randByte := fun _ _ => 0
  writeFile := fun _ => none
  command := fun k => if k = 1 then some (str "exit status 1") else none

/-! # Theorems -/

/-! ## Secret generation: lemmas -/

theorem replaceAllAux_single_nil (x : Byte) (s : GoString) :
    replaceAllAux [x] [] 0 s = s.filter (fun c => c != x) := by
  induction s with
  | nil => rfl
  | cons c t ih =>
    by_cases h : x = c
    · subst h
      simp [replaceAllAux, List.isPrefixOf, ih]
    · have h2 : (c != x) = true := by simpa using fun e => h e.symm
      simp [replaceAllAux, List.isPrefixOf, ih, h, h2]

theorem mem_replaceAll_single (x : Byte) (s : GoString) (c : Byte) :
    c ∈ replaceAll s [x] [] ↔ c ∈ s ∧ c ≠ x := by
  simp [replaceAll, replaceAllAux_single_nil, List.mem_filter]

theorem length_replaceAll_single (x : Byte) (s : GoString) :
    (replaceAll s [x] []).length ≤ s.length := by
  simp only [replaceAll, replaceAllAux_single_nil]
  exact List.length_filter_le _ _

theorem mem_stripEncoded (s : GoString) (c : Byte) :
    c ∈ stripEncoded s ↔ c ∈ s ∧ c ≠ 61 ∧ c ≠ 43 ∧ c ≠ 47 ∧ c ≠ 10 := by
  have h1 : str "=" = [61] := by decide
  have h2 : str "+" = [43] := by decide
  have h3 : str "/" = [47] := by decide
  have h4 : str "\n" = [10] := by decide
  simp only [stripEncoded, h1, h2, h3, h4, mem_replaceAll_single]
  tauto

theorem encodeStd_length : encodeStd.length = 64 := by decide

theorem encodeAt_mem (v : Nat) : encodeAt v ∈ encodeStd := by
  have h : v % 64 < encodeStd.length := by
    rw [encodeStd_length]; exact Nat.mod_lt _ (by decide)
  unfold encodeAt
  rw [List.getD_eq_getElem _ _ h]
  exact List.getElem_mem h

theorem mem_encodeToString : ∀ (bytes : List Byte) (c : Byte),
    c ∈ encodeToString bytes → c ∈ encodeStd ∨ c = stdPadding
  | [], c, h => by simp [encodeToString] at h
  | [a], c, h => by
      simp only [encodeToString, List.mem_cons, List.mem_singleton, List.not_mem_nil,
        or_false] at h
      rcases h with h | h | h | h
      · exact Or.inl (h ▸ encodeAt_mem _)
      · exact Or.inl (h ▸ encodeAt_mem _)
      · exact Or.inr h
      · exact Or.inr h
  | [a, b], c, h => by
      simp only [encodeToString, List.mem_cons, List.mem_singleton, List.not_mem_nil,
        or_false] at h
      rcases h with h | h | h | h
      · exact Or.inl (h ▸ encodeAt_mem _)
      · exact Or.inl (h ▸ encodeAt_mem _)
      · exact Or.inl (h ▸ encodeAt_mem _)
      · exact Or.inr h
  | a :: b :: c' :: rest, c, h => by
      simp only [encodeToString, List.mem_cons] at h
      rcases h with h | h | h | h | h
      · exact Or.inl (h ▸ encodeAt_mem _)
      · exact Or.inl (h ▸ encodeAt_mem _)
      · exact Or.inl (h ▸ encodeAt_mem _)
      · exact Or.inl (h ▸ encodeAt_mem _)
      · exact mem_encodeToString rest c h

set_option maxRecDepth 8000 in
theorem encodeStd_alnum : ∀ c ∈ encodeStd, c = 43 ∨ c = 47 ∨ isAlnum c = true := by
  decide

theorem stripped_chars (bytes : List Byte) (c : Byte)
    (h : c ∈ stripEncoded (encodeToString bytes)) :
    (c ∈ encodeStd ∧ c ∉ str "=+/\n") ∧ isAlnum c = true := by
  have h5 : str "=+/\n" = [61, 43, 47, 10] := by decide
  rw [mem_stripEncoded] at h
  obtain ⟨hm, h1, h2, h3, h4⟩ := h
  have hstd : c ∈ encodeStd := by
    rcases mem_encodeToString bytes c hm with h | h
    · exact h
    · exact absurd h h1
  refine ⟨⟨hstd, ?_⟩, ?_⟩
  · rw [h5]; simp [h1, h2, h3, h4]
  · rcases encodeStd_alnum c hstd with h | h | h
    · exact absurd h h2
    · exact absurd h h3
    · exact h

/-! ## Claims C1, C10 -/

/-- C1: for every requested length `L` and every `L` bytes delivered by the
random source, `generateSecret L` returns a string of at most `L`
characters, each one a character of the base64 alphabet other than `=`, `+`,
`/` and newline, that is a letter or a digit. -/
theorem generateSecret_length_alphabet (L : Nat) (bytes : List Byte)
    (_hlen : bytes.length = L) :
    ∃ s, generateSecret L (.ok bytes) = .ok s ∧ s.length ≤ L ∧
      ∀ c ∈ s, (c ∈ encodeStd ∧ c ∉ str "=+/\n") ∧ isAlnum c = true := by
  by_cases h : (stripEncoded (encodeToString bytes)).length > L
  · refine ⟨(stripEncoded (encodeToString bytes)).take L, ?_, ?_, ?_⟩
    · simp [generateSecret, h]
    · simp [List.length_take]
    · intro c hc
      exact stripped_chars bytes c (List.mem_of_mem_take hc)
  · refine ⟨stripEncoded (encodeToString bytes), ?_, ?_, ?_⟩
    · simp [generateSecret, h]
    · omega
    · intro c hc
      exact stripped_chars bytes c hc

theorem generateSecret_length_alphabet_witness :
    ∃ s, generateSecret 3 (.ok [0, 16, 131]) = .ok s ∧ s.length ≤ 3 ∧
      ∀ c ∈ s, (c ∈ encodeStd ∧ c ∉ str "=+/\n") ∧ isAlnum c = true :=
  generateSecret_length_alphabet 3 [0, 16, 131] (by decide)

/-- C10: fifty random bytes exist (all `0xFF`) for which `generateSecret 50`
returns fewer than fifty characters, and whenever the stripped encoding is
longer than the requested length the result is its first `length`
characters. -/
theorem generateSecret_may_be_shorter :
    (∃ bytes : List Byte, bytes.length = 50 ∧
      ∃ s, generateSecret 50 (.ok bytes) = .ok s ∧ s.length < 50) ∧
    (∀ (L : Nat) (bytes : List Byte), bytes.length = L →
      (stripEncoded (encodeToString bytes)).length > L →
      generateSecret L (.ok bytes) = .ok ((stripEncoded (encodeToString bytes)).take L) ∧
      ((stripEncoded (encodeToString bytes)).take L).length = L) := by
  refine ⟨⟨List.replicate 50 255, by decide, str "8", by rfl, by decide⟩, ?_⟩
  intro L bytes _ h
  refine ⟨by simp [generateSecret, h], ?_⟩
  rw [List.length_take]; omega

theorem generateSecret_may_be_shorter_witness :
    generateSecret 2 (.ok [0, 0]) = .ok (str "AA") ∧ (str "AA").length = 2 := by
  have h := generateSecret_may_be_shorter.2 2 [0, 0] (by decide) (by decide)
  exact h

/-! ## Masking: lemmas -/

theorem slice_first4 (s : GoString) (h : 8 < s.length) : slice s 0 4 = some (s.take 4) := by
  have : (4 : Int) ≤ (s.length : Int) := by omega
  simp [slice, this]

theorem slice_last4 (s : GoString) (h : 8 < s.length) :
    slice s ((s.length : Int) - 4) s.length = some (s.drop (s.length - 4)) := by
  have h1 : (0 : Int) ≤ (s.length : Int) - 4 := by omega
  have h2 : ((s.length : Int) - 4).toNat = s.length - 4 := by omega
  simp [slice, h1, h2]

theorem maskString_short (s : GoString) (h : s.length ≤ 8) :
    maskString s = some (str "****") := by
  simp [maskString, h]

theorem maskString_long (s : GoString) (h : 8 < s.length) :
    maskString s = some (s.take 4 ++ str "****" ++ s.drop (s.length - 4)) := by
  have h8 : ¬ s.length ≤ 8 := by omega
  simp only [maskString, h8, if_false, slice_first4 s h, slice_last4 s h]

theorem maskString_total (s : GoString) : ∃ m, maskString s = some m := by
  by_cases h : s.length ≤ 8
  · exact ⟨_, maskString_short s h⟩
  · exact ⟨_, maskString_long s (by omega)⟩

/-! ## Claim C2 -/

/-- C2: `maskString` is total, no slice in it is out of range; it returns
the four-character mask `****` for a string of at most eight bytes, and the
first four bytes, the mask and the last four bytes for a longer one. -/
theorem maskString_spec (s : GoString) :
    (str "****").length = 4 ∧
    (s.length ≤ 8 → maskString s = some (str "****")) ∧
    (8 < s.length →
      slice s 0 4 = some (s.take 4) ∧
      slice s ((s.length : Int) - 4) s.length = some (s.drop (s.length - 4)) ∧
      maskString s = some (s.take 4 ++ str "****" ++ s.drop (s.length - 4))) ∧
    (maskString s).isSome = true := by
  refine ⟨by decide, maskString_short s, ?_, ?_⟩
  · intro h
    exact ⟨slice_first4 s h, slice_last4 s h, maskString_long s h⟩
  · obtain ⟨m, hm⟩ := maskString_total s
    rw [hm]; rfl

theorem maskString_spec_witness :
    maskString (str "abc") = some (str "****") ∧
    maskString (str "0123456789") = some (str "0123****6789") :=
  ⟨(maskString_spec (str "abc")).2.1 (by decide),
   ((maskString_spec (str "0123456789")).2.2.1 (by decide)).2.2⟩

/-! ## Case folding: lemmas -/

set_option maxRecDepth 8000 in
theorem asciiLower_eq_y : ∀ c : Byte, asciiLower c = 121 → (c = 121 ∨ c = 89) := by
  decide

set_option maxRecDepth 8000 in
theorem asciiLower_eq_e : ∀ c : Byte, asciiLower c = 101 → (c = 101 ∨ c = 69) := by
  decide

set_option maxRecDepth 8000 in
theorem asciiLower_eq_s : ∀ c : Byte, asciiLower c = 115 → (c = 115 ∨ c = 83) := by
  decide

theorem affirmative_of_map_asciiLower (s : GoString)
    (h : s.map asciiLower = str "y" ∨ s.map asciiLower = str "yes") : s ∈ affirmatives := by
  have hy : str "y" = [121] := by decide
  have hyes : str "yes" = [121, 101, 115] := by decide
  rw [hy, hyes] at h
  match s, h with
  | [], h => rcases h with h | h <;> exact absurd (congrArg List.length h) (by simp [List.length_map])
  | [a], h =>
    rcases h with h | h
    · have ha : asciiLower a = 121 := List.head_eq_of_cons_eq h
      rcases asciiLower_eq_y a ha with rfl | rfl <;> decide
    · exact absurd (congrArg List.length h) (by simp [List.length_map])
  | [a, b], h => rcases h with h | h <;> exact absurd (congrArg List.length h) (by simp [List.length_map])
  | [a, b, c], h =>
    rcases h with h | h
    · exact absurd (congrArg List.length h) (by simp [List.length_map])
    · have ha : asciiLower a = 121 := List.head_eq_of_cons_eq h
      have h2 := List.tail_eq_of_cons_eq h
      have hb : asciiLower b = 101 := List.head_eq_of_cons_eq h2
      have h3 := List.tail_eq_of_cons_eq h2
      have hc : asciiLower c = 115 := List.head_eq_of_cons_eq h3
      rcases asciiLower_eq_y a ha with rfl | rfl <;>
        rcases asciiLower_eq_e b hb with rfl | rfl <;>
          rcases asciiLower_eq_s c hc with rfl | rfl <;> decide
  | a :: b :: c :: d :: rest, h =>
    rcases h with h | h <;>
      exact absurd (congrArg List.length h) (by simp [List.length_map])

theorem toLower_of_affirmative (table : Nat → Nat) (s : GoString) (h : s ∈ affirmatives) :
    toLower table s = str "y" ∨ toLower table s = str "yes" := by
  simp only [affirmatives, List.mem_cons, List.mem_singleton, List.not_mem_nil, or_false] at h
  rcases h with h | h | h | h | h | h | h | h | h | h <;> subst h
  · exact Or.inl rfl
  · exact Or.inl rfl
  all_goals exact Or.inr rfl

theorem encodeRune_other (x : Nat) (hx : x ≠ 121 ∧ x ≠ 101 ∧ x ≠ 115) :
    ∃ b ∈ encodeRune x, b.val ≠ 121 ∧ b.val ≠ 101 ∧ b.val ≠ 115 := by
  unfold encodeRune
  split_ifs with h1 h2 h3 h4
  · refine ⟨Fin.ofNat x, by simp, ?_⟩
    show x % 256 ≠ 121 ∧ x % 256 ≠ 101 ∧ x % 256 ≠ 115
    omega
  · refine ⟨Fin.ofNat (0x80 + x % 64), by simp, ?_⟩
    show (0x80 + x % 64) % 256 ≠ 121 ∧ (0x80 + x % 64) % 256 ≠ 101 ∧
      (0x80 + x % 64) % 256 ≠ 115
    omega
  · exact ⟨0xBD, by simp, by decide⟩
  · refine ⟨Fin.ofNat (0x80 + x % 64), by simp, ?_⟩
    show (0x80 + x % 64) % 256 ≠ 121 ∧ (0x80 + x % 64) % 256 ≠ 101 ∧
      (0x80 + x % 64) % 256 ≠ 115
    omega
  · refine ⟨Fin.ofNat (0x80 + x % 64), by simp, ?_⟩
    show (0x80 + x % 64) % 256 ≠ 121 ∧ (0x80 + x % 64) % 256 ≠ 101 ∧
      (0x80 + x % 64) % 256 ≠ 115
    omega

theorem decodeRune_ascii (c : Byte) (rest : GoString) (h : c.val < 0x80) :
    decodeRune (c :: rest) = (c.val, 1) := by
  simp [decodeRune, h]

theorem decodeRune_nonascii (c : Byte) (rest : GoString) (h : 0x80 ≤ c.val) :
    0x80 ≤ (decodeRune (c :: rest)).1 := by
  have hc := c.isLt
  rcases rest with _ | ⟨b1, _ | ⟨b2, _ | ⟨b3, rest⟩⟩⟩
  · simp only [decodeRune]
    split_ifs <;> dsimp only [runeError] <;> omega
  · have h1 := b1.isLt
    simp only [decodeRune]
    split_ifs <;> dsimp only [runeError] <;> omega
  · have h1 := b1.isLt
    simp only [decodeRune]
    split_ifs <;> dsimp only [runeError] <;> omega
  · have h1 := b1.isLt
    simp only [decodeRune]
    split_ifs <;> dsimp only [runeError] <;> omega

theorem mapRunes_other (table : Nat → Nat)
    (htable : ∀ r, 0x80 ≤ r → table r ≠ 121 ∧ table r ≠ 101 ∧ table r ≠ 115) :
    ∀ (fuel : Nat) (s : GoString), s.length ≤ fuel → (∃ b ∈ s, 0x80 ≤ b.val) →
      ∃ b ∈ mapRunes (unicodeToLower table) fuel s, b.val ≠ 121 ∧ b.val ≠ 101 ∧ b.val ≠ 115
  | 0, s, hlen, ⟨b, hb, _⟩ => by
      have : s = [] := List.length_eq_zero.mp (Nat.le_zero.mp hlen)
      subst this
      simp at hb
  | fuel + 1, [], _, ⟨b, hb, _⟩ => by simp at hb
  | fuel + 1, c :: rest, hlen, ⟨b, hb, hge⟩ => by
      have hne : (c :: rest) ≠ [] := by simp
      simp only [mapRunes, hne, if_false]
      by_cases hc : c.val < 0x80
      · have hb2 : b ∈ rest := by
          rcases List.mem_cons.mp hb with h | h
          · subst h; omega
          · exact h
        have hlen2 : rest.length ≤ fuel := by simpa using hlen
        obtain ⟨b', hb', hbad⟩ := mapRunes_other table htable fuel rest hlen2 ⟨b, hb2, hge⟩
        refine ⟨b', ?_, hbad⟩
        rw [decodeRune_ascii c rest hc]
        exact List.mem_append_right _ (by simpa using hb')
      · have hr := decodeRune_nonascii c rest (by omega)
        have hr2 : ¬ (decodeRune (c :: rest)).1 < 0x80 := by omega
        obtain ⟨b', hb', hbad⟩ := encodeRune_other (table (decodeRune (c :: rest)).1)
          (htable _ hr)
        refine ⟨b', List.mem_append_left _ ?_, hbad⟩
        simpa [unicodeToLower, hr2] using hb'

theorem toLower_affirmative_iff (table : Nat → Nat)
    (htable : ∀ r, 0x80 ≤ r → table r ≠ 121 ∧ table r ≠ 101 ∧ table r ≠ 115)
    (s : GoString) :
    (toLower table s = str "y" ∨ toLower table s = str "yes") ↔ s ∈ affirmatives := by
  constructor
  · intro h
    by_cases hall : s.all (fun c => decide (c.val < 0x80)) = true
    · simp only [toLower, hall, if_true] at h
      exact affirmative_of_map_asciiLower s h
    · exfalso
      simp only [toLower, hall, Bool.false_eq_true, if_false] at h
      have hex : ∃ b ∈ s, 0x80 ≤ b.val := by
        simp only [List.all_eq_true, decide_eq_true_eq, not_forall] at hall
        obtain ⟨b, hb, hlt⟩ := hall
        exact ⟨b, hb, by omega⟩
      obtain ⟨b, hb, h1, h2, h3⟩ := mapRunes_other table htable s.length s (le_refl _) hex
      have hy : str "y" = [121] := by decide
      have hyes : str "yes" = [121, 101, 115] := by decide
      rw [hy, hyes] at h
      rcases h with h | h
      · rw [h] at hb
        simp only [List.mem_singleton] at hb
        subst hb
        exact h1 rfl
      · rw [h] at hb
        simp only [List.mem_cons, List.mem_singleton, List.not_mem_nil, or_false] at hb
        rcases hb with hb | hb | hb <;> subst hb
        · exact h1 rfl
        · exact h2 rfl
        · exact h3 rfl
  · exact toLower_of_affirmative table s

/-! ## Claim C3 -/

/-- C3, as stated, does not hold: the answer ` y` (a blank, then `y`) is not
a spelling of `y` or `yes`, yet `confirm` returns true on it. -/
theorem confirm_accepts_padded_answer :
    (∀ (table : Nat → Nat) (prompt : GoString),
      (confirm table (str " y\n") prompt).1 = true) ∧
    typed (str " y\n") = str " y" ∧
    str " y" ∉ affirmatives ∧ str " y\n" ∉ affirmatives :=
  ⟨fun _ _ => rfl, by decide, by decide, by decide⟩

/-- C3, amended: `confirm` returns true exactly when the line read, with
leading and trailing white space removed (`strings.TrimSpace`), is `y` or
`yes` in any mix of capital and small letters; the empty input gives false.
The case table of package `unicode` is assumed to send no code point from
U+0080 on to `y`, `e` or `s`. -/
theorem confirm_iff_trimmed_affirmative (table : Nat → Nat)
    (htable : ∀ r, 0x80 ≤ r → table r ≠ 121 ∧ table r ≠ 101 ∧ table r ≠ 115)
    (stdin prompt : GoString) :
    ((confirm table stdin prompt).1 = true ↔
      trimSpace (readString 10 stdin).1 ∈ affirmatives) ∧
    (confirm table [] prompt).1 = false ∧
    (confirm table (str "\n") prompt).1 = false := by
  refine ⟨?_, rfl, rfl⟩
  rw [← toLower_affirmative_iff table htable]
  simp [confirm]

theorem confirm_iff_trimmed_affirmative_witness :
    (∀ r, 0x80 ≤ r → id r ≠ 121 ∧ id r ≠ 101 ∧ id r ≠ 115) ∧
    (((confirm id (str "  YeS \r\nrest") (str "Go?")).1 = true ↔
      trimSpace (readString 10 (str "  YeS \r\nrest")).1 ∈ affirmatives) ∧
    (confirm id [] (str "Go?")).1 = false ∧
    (confirm id (str "\n") (str "Go?")).1 = false) :=
  ⟨fun r h => by simp only [id]; omega,
   confirm_iff_trimmed_affirmative id (fun r h => by simp only [id]; omega)
     (str "  YeS \r\nrest") (str "Go?")⟩

/-! ## Claim C4 -/

/-- C4, as stated, does not hold: on the input ` abc ` the generatable
prompt returns `abc`, not the typed input unchanged. -/
theorem promptOrGenerate_not_verbatim :
    (∀ (windows : Bool) (prompt : GoString) (randRead : Except GoString (List Byte)),
      promptOrGenerate windows (str " abc \n") prompt true randRead =
        .value (str "abc") [] [prompt ++ str ": "]) ∧
    typed (str " abc \n") = str " abc " ∧
    str "abc" ≠ str " abc " ∧ str "abc" ≠ str " abc \n" :=
  ⟨fun _ _ _ => rfl, by decide, by decide, by decide⟩

/-- C4, amended: a generatable prompt trims the line read
(`strings.TrimSpace`); if nothing is left it returns the output of
`generateSecret(50)` (and panics when that panics), otherwise it returns the
trimmed input. -/
theorem promptOrGenerate_spec (windows : Bool) (stdin prompt : GoString)
    (randRead : Except GoString (List Byte)) :
    (trimSpace (readString 10 stdin).1 = [] →
      (∀ secret, generateSecret 50 randRead = .ok secret →
        ∃ masked, maskString secret = some masked ∧
          promptOrGenerate windows stdin prompt true randRead =
            .value secret (readString 10 stdin).2
              [prompt ++ str ": ", printInfo windows (str "Generated: " ++ masked)]) ∧
      (∀ err, generateSecret 50 randRead = .error err →
        promptOrGenerate windows stdin prompt true randRead =
          .panic err [prompt ++ str ": "])) ∧
    (trimSpace (readString 10 stdin).1 ≠ [] →
      promptOrGenerate windows stdin prompt true randRead =
        .value (trimSpace (readString 10 stdin).1) (readString 10 stdin).2
          [prompt ++ str ": "]) := by
  refine ⟨fun h => ⟨?_, ?_⟩, fun h => ?_⟩
  · intro secret hs
    obtain ⟨m, hm⟩ := maskString_total secret
    exact ⟨m, hm, by simp [promptOrGenerate, h, hs, hm]⟩
  · intro err hs
    simp [promptOrGenerate, h, hs]
  · simp [promptOrGenerate, h]

theorem promptOrGenerate_spec_witness :
    (∃ masked, maskString (str "AAAA") = some masked ∧
      promptOrGenerate true (str " \nrest") (str "P") true (.ok [0, 0, 0]) =
        .value (str "AAAA") (str "rest")
          [str "P" ++ str ": ", printInfo true (str "Generated: " ++ masked)]) ∧
    promptOrGenerate true (str " pw 1 \nrest") (str "P") true (.ok [0, 0, 0]) =
      .value (str "pw 1") (str "rest") [str "P" ++ str ": "] :=
  ⟨((promptOrGenerate_spec true (str " \nrest") (str "P") (.ok [0, 0, 0])).1 (by decide)).1
      (str "AAAA") (by rfl),
   (promptOrGenerate_spec true (str " pw 1 \nrest") (str "P") (.ok [0, 0, 0])).2 (by decide)⟩

/-! ## Required prompt: lemmas -/

theorem promptRequired_answer (windows : Bool) (prompt : GoString) (fuel : Nat)
    (stdin : GoString) (h : trimSpace (readString 10 stdin).1 ≠ []) :
    promptRequired windows prompt (fuel + 1) stdin =
      some (trimSpace (readString 10 stdin).1, (readString 10 stdin).2, [prompt ++ str ": "]) := by
  simp [promptRequired, h]

theorem promptRequired_blank (windows : Bool) (prompt : GoString) (fuel : Nat)
    (stdin : GoString) (h : trimSpace (readString 10 stdin).1 = []) :
    promptRequired windows prompt (fuel + 1) stdin =
      match promptRequired windows prompt fuel (readString 10 stdin).2 with
      | none => none
      | some (v, rest, out) =>
        some (v, rest,
          (prompt ++ str ": ") :: printWarning windows (str "This field is required") :: out) := by
  simp [promptRequired, h]

theorem promptRequired_returns (windows : Bool) (prompt : GoString) :
    ∀ (k : Nat) (stdin : GoString),
      (∀ j, j < k → trimSpace (response j stdin) = []) →
      trimSpace (response k stdin) ≠ [] →
      ∀ fuel, k < fuel →
        promptRequired windows prompt fuel stdin =
          some (trimSpace (response k stdin), unread (k + 1) stdin,
            (List.replicate k
              [prompt ++ str ": ", printWarning windows (str "This field is required")]).flatten
              ++ [prompt ++ str ": "])
  | 0, stdin, _, hk, fuel, hfuel => by
      obtain ⟨f, rfl⟩ : ∃ f, fuel = f + 1 := ⟨fuel - 1, by omega⟩
      exact promptRequired_answer windows prompt f stdin hk
  | k + 1, stdin, hblank, hk, fuel, hfuel => by
      obtain ⟨f, rfl⟩ : ∃ f, fuel = f + 1 := ⟨fuel - 1, by omega⟩
      have h0 : trimSpace (readString 10 stdin).1 = [] := hblank 0 (by omega)
      have ih := promptRequired_returns windows prompt k (readString 10 stdin).2
        (fun j hj => hblank (j + 1) (by omega)) hk f (by omega)
      rw [promptRequired_blank windows prompt f stdin h0, ih]
      simp [response, unread, List.replicate_succ]

theorem promptRequired_waits (windows : Bool) (prompt : GoString) :
    ∀ (k : Nat) (stdin : GoString),
      (∀ j, j < k → trimSpace (response j stdin) = []) →
      ∀ fuel, fuel ≤ k → promptRequired windows prompt fuel stdin = none
  | _, _, _, 0, _ => rfl
  | 0, _, _, fuel + 1, hfuel => by omega
  | k + 1, stdin, hblank, fuel + 1, hfuel => by
      have h0 : trimSpace (readString 10 stdin).1 = [] := hblank 0 (by omega)
      have ih := promptRequired_waits windows prompt k (readString 10 stdin).2
        (fun j hj => hblank (j + 1) (by omega)) fuel (by omega)
      rw [promptRequired_blank windows prompt fuel stdin h0, ih]

theorem promptRequired_nonempty (windows : Bool) (prompt : GoString) :
    ∀ (fuel : Nat) (stdin v rest : GoString) (out : List GoString),
      promptRequired windows prompt fuel stdin = some (v, rest, out) → v ≠ []
  | 0, _, _, _, _, h => by simp [promptRequired] at h
  | fuel + 1, stdin, v, rest, out, h => by
      by_cases h0 : trimSpace (readString 10 stdin).1 = []
      · rw [promptRequired_blank windows prompt fuel stdin h0] at h
        cases hrec : promptRequired windows prompt fuel (readString 10 stdin).2 with
        | none => rw [hrec] at h; simp at h
        | some r =>
          obtain ⟨v', rest', out'⟩ := r
          rw [hrec] at h
          simp only [Option.some.injEq, Prod.mk.injEq] at h
          obtain ⟨hv, _, _⟩ := h
          subst hv
          exact promptRequired_nonempty windows prompt fuel _ _ _ _ hrec
      · rw [promptRequired_answer windows prompt fuel stdin h0] at h
        simp only [Option.some.injEq, Prod.mk.injEq] at h
        obtain ⟨hv, _, _⟩ := h
        subst hv
        exact h0

/-! ## Claim C5 -/

/-- C5, as stated, does not hold: with the responses of two blanks and then
`abc`, the first non-empty response is the two blanks, yet `promptRequired`
warns on it and returns `abc`. -/
theorem promptRequired_skips_blank_response :
    response 0 (str "  \nabc\n") = str "  \n" ∧
    typed (str "  \n") = str "  " ∧ str "  " ≠ [] ∧
    (∀ (windows : Bool) (prompt : GoString),
      promptRequired windows prompt 2 (str "  \nabc\n") =
        some (str "abc", [],
          [prompt ++ str ": ", printWarning windows (str "This field is required"),
           prompt ++ str ": "])) ∧
    str "abc" ≠ str "  " :=
  ⟨by decide, by decide, by decide, fun _ _ => rfl, by decide⟩

/-- C5, amended: a response counts as empty when nothing is left of it after
white space is trimmed (`strings.TrimSpace`).  If response `k` is the first
that is not empty in this sense, `promptRequired` returns it trimmed, after
one prompt and one warning `This field is required` for each of the `k`
responses before it and a last prompt, and it has not returned within `k`
rounds; a value it returns is never the empty string; and it returns in no
number of rounds when every response is empty. -/
theorem promptRequired_spec (windows : Bool) (prompt stdin : GoString) :
    (∀ k, (∀ j, j < k → trimSpace (response j stdin) = []) →
      trimSpace (response k stdin) ≠ [] →
      (∀ fuel, k < fuel →
        promptRequired windows prompt fuel stdin =
          some (trimSpace (response k stdin), unread (k + 1) stdin,
            (List.replicate k
              [prompt ++ str ": ", printWarning windows (str "This field is required")]).flatten
              ++ [prompt ++ str ": "])) ∧
      (∀ fuel, fuel ≤ k → promptRequired windows prompt fuel stdin = none)) ∧
    (∀ fuel v rest out, promptRequired windows prompt fuel stdin = some (v, rest, out) →
      v ≠ []) ∧
    ((∀ j, trimSpace (response j stdin) = []) →
      ∀ fuel, promptRequired windows prompt fuel stdin = none) := by
  refine ⟨fun k hblank hk => ⟨?_, ?_⟩, ?_, ?_⟩
  · exact promptRequired_returns windows prompt k stdin hblank hk
  · exact promptRequired_waits windows prompt k stdin hblank
  · exact fun fuel v rest out h => promptRequired_nonempty windows prompt fuel stdin v rest out h
  · exact fun hall fuel =>
      promptRequired_waits windows prompt fuel stdin (fun j _ => hall j) fuel (le_refl _)

theorem promptRequired_spec_witness :
    promptRequired true (str "Domain") 3 (str "\n \t\n example.com \nops@example.com\n") =
      some (str "example.com", str "ops@example.com\n",
        [str "Domain: ", str "[WARNING] This field is required\n",
         str "Domain: ", str "[WARNING] This field is required\n", str "Domain: "]) ∧
    promptRequired true (str "Domain") 2 (str "\n \t\n example.com \nops@example.com\n") =
      none := by
  have h := (promptRequired_spec true (str "Domain")
    (str "\n \t\n example.com \nops@example.com\n")).1 2 (by decide) (by decide)
  exact ⟨h.1 3 (by decide), h.2 2 (by decide)⟩

/-! ## Claim C6 -/

/-- C6: for every configuration the content rendered for
`apps/web/.env.production` is `NEXT_PUBLIC_API_URL=https://api.`, the domain
and a newline; the contents rendered for `.env` and `apps/api/.env` both hold
the line `DATABASE_URL=postgresql://erpuser:<password>@postgres:5432/erp_production`
with the collected password; and when no write fails these three contents
are written to the three paths. -/
theorem rendered_files (c : Config) :
    webEnv c = str "NEXT_PUBLIC_API_URL=https://api." ++ c.domain ++ str "\n" ∧
    (str "\n" ++ databaseUrlLine c.dbPassword ++ str "\n") <:+: mainEnv c ∧
    (str "\n" ++ databaseUrlLine c.dbPassword ++ str "\n") <:+: apiEnv c ∧
    (apiEnvPath false = str "apps/api/.env" ∧
      webEnvPath false = str "apps/web/.env.production") ∧
    (∀ (w : World) (workDir rest : GoString) (t : List Event),
      w.writeFile (str ".env") = none → w.writeFile (apiEnvPath w.windows) = none →
      Event.writeFile (str ".env") (mainEnv c) 0o600 ∈ (writeFiles w workDir c rest t).trace ∧
      Event.writeFile (apiEnvPath w.windows) (apiEnv c) 0o600 ∈
        (writeFiles w workDir c rest t).trace ∧
      Event.writeFile (webEnvPath w.windows) (webEnv c) 0o600 ∈
        (writeFiles w workDir c rest t).trace) := by
  have h1 : str "\nDATABASE_URL=postgresql://erpuser:" =
      str "\n" ++ str "DATABASE_URL=postgresql://erpuser:" := by decide
  have h2 : str "@postgres:5432/erp_production\n\n# JWT Configuration\nJWT_SECRET=" =
      str "@postgres:5432/erp_production" ++ (str "\n" ++ str "\n# JWT Configuration\nJWT_SECRET=") := by
    decide
  have h3 : str "NODE_ENV=production\nPORT=3001\n\n# Database\nDATABASE_URL=postgresql://erpuser:" =
      str "NODE_ENV=production\nPORT=3001\n\n# Database" ++
        (str "\n" ++ str "DATABASE_URL=postgresql://erpuser:") := by decide
  have h4 : str "@postgres:5432/erp_production\n\n# JWT Secrets\nJWT_SECRET=" =
      str "@postgres:5432/erp_production" ++ (str "\n" ++ str "\n# JWT Secrets\nJWT_SECRET=") := by
    decide
  refine ⟨rfl, ?_, ?_, ⟨by decide, by decide⟩, ?_⟩
  · refine ⟨str "# Database Configuration\nDB_PASSWORD=" ++ c.dbPassword,
      str "\n# JWT Configuration\nJWT_SECRET=" ++ c.jwtSecret ++
        str "\nJWT_REFRESH_SECRET=" ++ c.jwtRefreshSecret ++
        str "\n\n# SSL Configuration\nDOMAIN=" ++ c.domain ++
        str "\nEMAIL=" ++ c.email ++
        str "\n\n# Optional AI Configuration\nGEMINI_API_KEY=" ++ c.geminiKey ++ str "\n", ?_⟩
    simp only [mainEnv, databaseUrlLine, h1, h2, List.append_assoc]
  · refine ⟨str "NODE_ENV=production\nPORT=3001\n\n# Database",
      str "\n# JWT Secrets\nJWT_SECRET=" ++ c.jwtSecret ++
        str "\nJWT_REFRESH_SECRET=" ++ c.jwtRefreshSecret ++
        str "\n\n# Google Gemini API\nGEMINI_API_KEY=" ++ c.geminiKey ++
        str "\n\n# Uploads\nUPLOAD_DIR=/app/uploads\n", ?_⟩
    simp only [apiEnv, databaseUrlLine, h3, h4, List.append_assoc]
  · intro w workDir rest t hw1 hw2
    simp only [writeFiles, hw1, hw2]
    cases hw3 : w.writeFile (webEnvPath w.windows) with
    | some err => simp
    | none =>
      simp only [finish]
      split <;> simp

theorem rendered_files_witness :
    Event.writeFile (str ".env")
        (mainEnv ⟨str "pw123", str "j", str "r", [], str "example.com", str "a@b.c"⟩) 0o600 ∈
      (writeFiles ⟨false, id, [], none, .ok [], fun _ => true, fun _ => none, fun _ _ => 0,
        fun _ => none, fun _ => none⟩ []
        ⟨str "pw123", str "j", str "r", [], str "example.com", str "a@b.c"⟩ [] []).trace ∧
    webEnv ⟨str "pw123", str "j", str "r", [], str "example.com", str "a@b.c"⟩ =
      str "NEXT_PUBLIC_API_URL=https://api.example.com\n" :=
  ⟨((rendered_files ⟨str "pw123", str "j", str "r", [], str "example.com", str "a@b.c"⟩).2.2.2.2
      ⟨false, id, [], none, .ok [], fun _ => true, fun _ => none, fun _ _ => 0,
        fun _ => none, fun _ => none⟩ [] [] [] rfl rfl).1,
   by decide⟩

/-! ## `main`: lemmas -/

theorem printError_text (windows : Bool) (msg : GoString) :
    printError windows msg =
      (if windows then str "[ERROR] " else str "\x1b[31m[✗] ") ++ msg ++
        (if windows then str "\n" else str "\x1b[0m\n") := by
  have h1 : str "\x1b[31m[✗] " = colorRed ++ str "[✗] " := by decide
  have h2 : str "\x1b[0m\n" = colorReset ++ str "\n" := by decide
  cases windows
  · simp only [printError, Bool.false_eq_true, if_false, h1, h2, List.append_assoc]
  · simp only [printError, if_true]

theorem map_stdout_commands (out : List GoString) :
    (out.map Event.stdout).filterMap Event.command = [] := by
  induction out with
  | nil => rfl
  | cons x xs ih => simp [Event.command, ih]

theorem ne_deployPrompt_of_newline (l : GoString) : l ++ str "\n" ≠ deployPrompt := by
  intro h
  have h2 := congrArg List.getLast? h
  have h3 : str "\n" = [10] := by decide
  have h4 : deployPrompt.getLast? = some 32 := by decide
  rw [h3, List.getLast?_append, h4] at h2
  simp at h2

theorem printInfo_ne_deployPrompt (windows : Bool) (msg : GoString) :
    printInfo windows msg ≠ deployPrompt := by
  cases windows <;> exact ne_deployPrompt_of_newline _

theorem printSuccess_ne_deployPrompt (windows : Bool) (msg : GoString) :
    printSuccess windows msg ≠ deployPrompt := by
  cases windows <;> exact ne_deployPrompt_of_newline _

theorem printError_ne_deployPrompt (windows : Bool) (msg : GoString) :
    printError windows msg ≠ deployPrompt := by
  cases windows <;> exact ne_deployPrompt_of_newline _

theorem printWarning_ne_deployPrompt (windows : Bool) (msg : GoString) :
    printWarning windows msg ≠ deployPrompt := by
  cases windows <;> exact ne_deployPrompt_of_newline _

theorem isPreamble_map_stdout (out : List GoString) (h : ∀ x ∈ out, x ≠ deployPrompt) :
    ∀ e ∈ out.map Event.stdout, e.isPreamble = true := by
  intro e he
  obtain ⟨x, hx, rfl⟩ := List.mem_map.mp he
  simpa [Event.isPreamble] using h x hx

theorem isFileSystem_map_stdout (out : List GoString) :
    ∀ e ∈ out.map Event.stdout, e.isFileSystem = false := by
  intro e he
  obtain ⟨x, _, rfl⟩ := List.mem_map.mp he
  rfl

theorem promptOrGenerate_out (windows : Bool) (stdin prompt : GoString) (generate : Bool)
    (randRead : Except GoString (List Byte)) (v rest : GoString) (out : List GoString)
    (h : promptOrGenerate windows stdin prompt generate randRead = .value v rest out)
    (hp : prompt ++ str ": " ≠ deployPrompt) : ∀ x ∈ out, x ≠ deployPrompt := by
  unfold promptOrGenerate at h
  simp only at h
  split at h
  · split at h
    · cases h
    · split at h
      · cases h
      · cases h
        intro x hx
        simp only [List.mem_cons, List.mem_singleton, List.not_mem_nil, or_false] at hx
        rcases hx with rfl | rfl
        · exact hp
        · exact printInfo_ne_deployPrompt _ _
  · cases h
    intro x hx
    simp only [List.mem_singleton] at hx
    subst hx
    exact hp

theorem promptRequired_out (windows : Bool) (prompt : GoString)
    (hp : prompt ++ str ": " ≠ deployPrompt) :
    ∀ (fuel : Nat) (stdin v rest : GoString) (out : List GoString),
      promptRequired windows prompt fuel stdin = some (v, rest, out) →
      ∀ x ∈ out, x ≠ deployPrompt
  | 0, _, _, _, _, h => by simp [promptRequired] at h
  | fuel + 1, stdin, v, rest, out, h => by
      by_cases h0 : trimSpace (readString 10 stdin).1 = []
      · rw [promptRequired_blank windows prompt fuel stdin h0] at h
        cases hrec : promptRequired windows prompt fuel (readString 10 stdin).2 with
        | none => rw [hrec] at h; simp at h
        | some r =>
          obtain ⟨v', rest', out'⟩ := r
          rw [hrec] at h
          simp only [Option.some.injEq, Prod.mk.injEq] at h
          obtain ⟨_, _, hout⟩ := h
          subst hout
          intro x hx
          simp only [List.mem_cons] at hx
          rcases hx with rfl | rfl | hx
          · exact hp
          · exact printWarning_ne_deployPrompt _ _
          · exact promptRequired_out windows prompt hp fuel _ _ _ _ hrec x hx
      · rw [promptRequired_answer windows prompt fuel stdin h0] at h
        simp only [Option.some.injEq, Prod.mk.injEq] at h
        obtain ⟨_, _, hout⟩ := h
        subst hout
        intro x hx
        simp only [List.mem_singleton] at hx
        subst hx
        exact hp

theorem collect_out (w : World) (fuel : Nat) (c : Config) (rest : GoString)
    (out : List GoString) (h : collect w fuel = some (.config c rest out)) :
    ∀ x ∈ out, x ≠ deployPrompt := by
  unfold collect at h
  simp only at h
  split at h
  · cases h
  · rename_i v1 r1 o1 h1
    split at h
    · cases h
    · rename_i v2 r2 o2 h2
      split at h
      · cases h
      · rename_i v3 r3 o3 h3
        split at h
        · cases h
        · rename_i v5 r5 o5 h5
          split at h
          · cases h
          · rename_i v6 r6 o6 h6
            cases h
            have e1 := promptOrGenerate_out _ _ _ _ _ _ _ _ h1 (by decide)
            have e2 := promptOrGenerate_out _ _ _ _ _ _ _ _ h2 (by decide)
            have e3 := promptOrGenerate_out _ _ _ _ _ _ _ _ h3 (by decide)
            have e4 : ∀ x ∈ (promptOptional
                (str "Gemini API Key (optional, press Enter to skip)") r3).2.2,
                x ≠ deployPrompt := by
              intro x hx
              simp only [promptOptional, List.mem_singleton] at hx
              subst hx
              decide
            have e5 := promptRequired_out w.windows _ (by decide) _ _ _ _ _ h5
            have e6 := promptRequired_out w.windows _ (by decide) _ _ _ _ _ h6
            intro x hx
            simp only [List.mem_append, List.mem_cons, List.mem_singleton, List.not_mem_nil,
              or_false] at hx
            rcases hx with (((((((rfl | rfl | rfl) | hx) | hx) | hx) | hx) | hx) | hx)
            · decide
            · exact printInfo_ne_deployPrompt _ _
            · decide
            · exact e1 x hx
            · exact e2 x hx
            · exact e3 x hx
            · exact e4 x hx
            · exact e5 x hx
            · exact e6 x hx

theorem summary_ok (windows : Bool) (c : Config) :
    ∃ out, summary windows c = .ok out ∧ ∀ x ∈ out, x ≠ deployPrompt := by
  obtain ⟨m1, h1⟩ := maskString_total c.dbPassword
  obtain ⟨m2, h2⟩ := maskString_total c.jwtSecret
  obtain ⟨m3, h3⟩ := maskString_total c.jwtRefreshSecret
  obtain ⟨m4, h4⟩ := maskString_total c.geminiKey
  have hnl : str "\n" ≠ deployPrompt := by decide
  have hnp : str "Gemini API Key: (not provided)\n" ≠ deployPrompt := by decide
  by_cases hg : c.geminiKey = []
  · refine ⟨_, by simp only [summary, h1, h2, h3, hg, ne_eq, not_true_eq_false, if_false]; rfl, ?_⟩
    intro x hx
    simp only [List.mem_append, List.mem_cons, List.mem_singleton, List.not_mem_nil,
      or_false] at hx
    rcases hx with (((((rfl | rfl) | rfl) | rfl) | rfl) | rfl) | rfl | rfl | rfl
    · exact hnl
    · exact printInfo_ne_deployPrompt _ _
    · exact ne_deployPrompt_of_newline _
    · exact ne_deployPrompt_of_newline _
    · exact ne_deployPrompt_of_newline _
    · exact hnp
    · exact ne_deployPrompt_of_newline _
    · exact ne_deployPrompt_of_newline _
    · exact hnl
  · refine ⟨_, by simp only [summary, h1, h2, h3, h4, hg, ne_eq, not_false_eq_true, if_true]; rfl, ?_⟩
    intro x hx
    simp only [List.mem_append, List.mem_cons, List.mem_singleton, List.not_mem_nil,
      or_false] at hx
    rcases hx with (((((rfl | rfl) | rfl) | rfl) | rfl) | rfl) | rfl | rfl | rfl
    · exact hnl
    · exact printInfo_ne_deployPrompt _ _
    · exact ne_deployPrompt_of_newline _
    · exact ne_deployPrompt_of_newline _
    · exact ne_deployPrompt_of_newline _
    · exact ne_deployPrompt_of_newline _
    · exact ne_deployPrompt_of_newline _
    · exact ne_deployPrompt_of_newline _
    · exact hnl

theorem isFileSystem_of_isPreamble (e : Event) (h : e.isPreamble = true) :
    e.isFileSystem = false := by
  cases e <;> simp_all [Event.isPreamble, Event.isFileSystem]

theorem isQuiet_of_isPreamble (later : List GoString) (e : Event) (h : e.isPreamble = true) :
    e.isQuiet later = true := by
  cases e <;> simp_all [Event.isPreamble, Event.isQuiet]

theorem waitForExit_isQuiet (later : List GoString) :
    ∀ e ∈ waitForExit, e.isQuiet later = true := by
  intro e he
  simp only [waitForExit, List.mem_cons, List.mem_singleton, List.not_mem_nil, or_false] at he
  rcases he with rfl | rfl | rfl
  · exact (by decide : (str "\n" != deployPrompt) = true)
  · exact (by decide : (str "Press Enter to exit..." != deployPrompt) = true)
  · rfl

theorem quiet_trace (later : List GoString) (trace : List Event)
    (h : ∀ e ∈ trace, e.isQuiet later = true) :
    (∀ p ∈ later, ∀ data perm, Event.writeFile p data perm ∉ trace) ∧
    Event.stdout deployPrompt ∉ trace ∧
    (∀ dir name args, Event.exec (some dir) name args ∉ trace) := by
  refine ⟨fun p hp data perm hmem => ?_, fun hmem => ?_, fun dir name args hmem => ?_⟩
  · have := h _ hmem
    simp [Event.isQuiet, hp] at this
  · have := h _ hmem
    simp [Event.isQuiet] at this
  · have := h _ hmem
    simp [Event.isQuiet] at this

/-- With the checks passed and the prompts answered, `main` reaches the
confirmation with a trace `t` of preamble events, and goes on from there
according to the answer. -/
theorem main_at_confirmation (w : World) (fuel : Nat) (workDir : GoString) (c : Config)
    (rest : GoString) (out : List GoString)
    (hdocker : w.dockerVersion = none) (hwd : w.getwd = .ok workDir)
    (hmarker : w.composeFileExists workDir = true)
    (hcollect : collect w fuel = some (.config c rest out)) :
    ∃ t : List Event, (∀ e ∈ t, e.isPreamble = true) ∧
      t.filterMap Event.command = [(none, [str "docker", str "version"])] ∧
      main w fuel = some
        (if (confirm w.toLowerTable rest (str "Continue with this configuration?")).1 = false
          then ⟨t ++ [.stdout (printInfo w.windows (str "Setup cancelled"))] ++ waitForExit,
            .code 0⟩
          else writeFiles w workDir c
            (confirm w.toLowerTable rest (str "Continue with this configuration?")).2.1 t) := by
  obtain ⟨sout, hsum, hsout⟩ := summary_ok w.windows c
  refine ⟨(printBanner.map Event.stdout ++ [.exec none (str "docker") [str "version"]] ++
      [.stdout (printSuccess w.windows (str "Docker is installed and running"))] ++
      out.map Event.stdout) ++ sout.map Event.stdout ++
      (confirm w.toLowerTable rest (str "Continue with this configuration?")).2.2.map
        Event.stdout, ?_, ?_, ?_⟩
  · intro e he
    simp only [List.mem_append] at he
    rcases he with (((((he | he) | he) | he) | he) | he)
    · exact isPreamble_map_stdout printBanner (by decide) e he
    · simp only [List.mem_singleton] at he
      subst he; rfl
    · simp only [List.mem_singleton] at he
      subst he
      simpa [Event.isPreamble] using printSuccess_ne_deployPrompt _ _
    · exact isPreamble_map_stdout out (collect_out w fuel c rest out hcollect) e he
    · exact isPreamble_map_stdout sout hsout e he
    · refine isPreamble_map_stdout _ ?_ e he
      intro x hx
      simp only [confirm, List.mem_singleton] at hx
      subst hx
      decide
  · simp only [List.filterMap_append, map_stdout_commands, List.nil_append, List.append_nil]
    rfl
  · simp only [main, preflight, hdocker, hwd, hmarker, hcollect, confirmAndWrite, hsum]
    rfl

/-! ## Claim C7 -/

/-- C7: in a run in which Docker is found, the working directory holds the
compose file, the prompts are answered and the answer to `Continue with this
configuration?` is a decline, `main` ends with exit code 0 and its trace
holds no file write and no directory creation. -/
theorem main_decline (w : World) (fuel : Nat) (workDir : GoString) (c : Config)
    (rest : GoString) (out : List GoString)
    (hdocker : w.dockerVersion = none) (hwd : w.getwd = .ok workDir)
    (hmarker : w.composeFileExists workDir = true)
    (hcollect : collect w fuel = some (.config c rest out))
    (hdecline :
      (confirm w.toLowerTable rest (str "Continue with this configuration?")).1 = false) :
    ∃ r, main w fuel = some r ∧ r.exit = .code 0 ∧
      ∀ e ∈ r.trace, e.isFileSystem = false := by
  obtain ⟨t, ht, _, hmain⟩ :=
    main_at_confirmation w fuel workDir c rest out hdocker hwd hmarker hcollect
  rw [hdecline] at hmain
  refine ⟨_, hmain, rfl, ?_⟩
  intro e he
  simp only [if_true, List.mem_append, List.mem_singleton, waitForExit, List.mem_cons,
    List.not_mem_nil, or_false] at he
  rcases he with (he | rfl) | rfl | rfl | rfl
  · exact isFileSystem_of_isPreamble e (ht e he)
  all_goals rfl

theorem main_decline_witness :
    ∃ r, main declineWorld 1 = some r ∧ r.exit = .code 0 ∧
      ∀ e ∈ r.trace, e.isFileSystem = false :=
  main_decline declineWorld 1 (str "/srv/erp")
    ⟨str "pw123", str "jwt", str "refresh", [], str "example.com", str "ops@example.com"⟩
    (str "n\n") _ rfl rfl rfl rfl rfl

/-! ## Claim C8 -/

theorem paths_distinct (windows : Bool) :
    str ".env" ≠ apiEnvPath windows ∧ str ".env" ≠ webEnvPath windows ∧
    apiEnvPath windows ≠ webEnvPath windows := by
  cases windows <;> decide

/-- C8: in a run that reaches file emission (checks passed, prompts
answered, configuration confirmed), the first failing write among `.env`,
`apps/api/.env`, `apps/web/.env.production` aborts the run: exit code 1, the
trace ends with the failing write, the error line on standard output (error
marker, `Failed to create <file>: <error text>`, newline) and `waitForExit`,
no later file is
written, the deployment prompt is not written and no deployment command is
run. -/
theorem write_failure_aborts (w : World) (fuel : Nat) (workDir : GoString) (c : Config)
    (rest : GoString) (out : List GoString)
    (hdocker : w.dockerVersion = none) (hwd : w.getwd = .ok workDir)
    (hmarker : w.composeFileExists workDir = true)
    (hcollect : collect w fuel = some (.config c rest out))
    (hconfirm :
      (confirm w.toLowerTable rest (str "Continue with this configuration?")).1 = true)
    (err : GoString) :
    (w.writeFile (str ".env") = some err →
      AbortsOnWrite w fuel (str ".env") (mainEnv c) (str ".env") err
        [apiEnvPath w.windows, webEnvPath w.windows]) ∧
    (w.writeFile (str ".env") = none → w.writeFile (apiEnvPath w.windows) = some err →
      AbortsOnWrite w fuel (apiEnvPath w.windows) (apiEnv c) (str "apps/api/.env") err
        [webEnvPath w.windows]) ∧
    (w.writeFile (str ".env") = none → w.writeFile (apiEnvPath w.windows) = none →
      w.writeFile (webEnvPath w.windows) = some err →
      AbortsOnWrite w fuel (webEnvPath w.windows) (webEnv c)
        (str "apps/web/.env.production") err []) := by
  obtain ⟨t, ht, _, hmain⟩ :=
    main_at_confirmation w fuel workDir c rest out hdocker hwd hmarker hcollect
  simp only [hconfirm, Bool.true_eq_false, if_false] at hmain
  obtain ⟨hp1, hp2, hp3⟩ := paths_distinct w.windows
  have hm1 : str "Failed to create .env: " = str "Failed to create " ++ str ".env" ++ str ": " := by
    decide
  have hm2 : str "Failed to create apps/api/.env: " =
      str "Failed to create " ++ str "apps/api/.env" ++ str ": " := by decide
  have hm3 : str "Failed to create apps/web/.env.production: " =
      str "Failed to create " ++ str "apps/web/.env.production" ++ str ": " := by decide
  have hinfo := printInfo_ne_deployPrompt w.windows (str "Creating environment files...")
  refine ⟨fun h1 => ?_, fun h1 h2 => ?_, fun h1 h2 h3 => ?_⟩
  · refine ⟨_, t ++ [.stdout (printInfo w.windows (str "Creating environment files..."))],
      hmain, ?_, ?_, ?_⟩
    · simp only [writeFiles, h1]
    · simp only [writeFiles, h1, hm1, printError_text, List.append_assoc, List.cons_append,
        List.nil_append]
    · apply quiet_trace
      intro e he
      simp only [writeFiles, h1, List.mem_append, List.mem_cons, List.mem_singleton,
        List.not_mem_nil, or_false] at he
      rcases he with ((he | rfl | rfl) | rfl) | he
      · exact isQuiet_of_isPreamble _ e (ht e he)
      · simpa [Event.isQuiet] using hinfo
      · simp [Event.isQuiet, hp1, hp2]
      · simpa [Event.isQuiet] using printError_ne_deployPrompt _ _
      · exact waitForExit_isQuiet _ e he
  · refine ⟨_, t ++ [.stdout (printInfo w.windows (str "Creating environment files...")),
        .writeFile (str ".env") (mainEnv c) 0o600,
        .mkdirAll (filepathJoin w.windows [str "apps", str "api"]) 0o755],
      hmain, ?_, ?_, ?_⟩
    · simp only [writeFiles, h1, h2]
    · simp only [writeFiles, h1, h2, hm2, printError_text, List.append_assoc,
        List.cons_append, List.nil_append]
    · apply quiet_trace
      intro e he
      simp only [writeFiles, h1, h2, List.mem_append, List.mem_cons, List.mem_singleton,
        List.not_mem_nil, or_false] at he
      rcases he with (((he | rfl | rfl) | rfl | rfl) | rfl) | he
      · exact isQuiet_of_isPreamble _ e (ht e he)
      · simpa [Event.isQuiet] using hinfo
      · simp [Event.isQuiet, hp2]
      · rfl
      · simp [Event.isQuiet, hp3]
      · simpa [Event.isQuiet] using printError_ne_deployPrompt _ _
      · exact waitForExit_isQuiet _ e he
  · refine ⟨_, t ++ [.stdout (printInfo w.windows (str "Creating environment files...")),
        .writeFile (str ".env") (mainEnv c) 0o600,
        .mkdirAll (filepathJoin w.windows [str "apps", str "api"]) 0o755,
        .writeFile (apiEnvPath w.windows) (apiEnv c) 0o600,
        .mkdirAll (filepathJoin w.windows [str "apps", str "web"]) 0o755],
      hmain, ?_, ?_, ?_⟩
    · simp only [writeFiles, h1, h2, h3]
    · simp only [writeFiles, h1, h2, h3, hm3, printError_text, List.append_assoc,
        List.cons_append, List.nil_append]
    · apply quiet_trace
      intro e he
      simp only [writeFiles, h1, h2, h3, List.mem_append, List.mem_cons, List.mem_singleton,
        List.not_mem_nil, or_false] at he
      rcases he with ((((he | rfl | rfl) | rfl | rfl) | rfl | rfl) | rfl) | he
      · exact isQuiet_of_isPreamble _ e (ht e he)
      · simpa [Event.isQuiet] using hinfo
      all_goals first
        | rfl
        | exact waitForExit_isQuiet _ e he
        | simpa [Event.isQuiet] using printError_ne_deployPrompt _ _

theorem write_failure_aborts_witness :
    ∃ (r : Run) (pre : List Event),
      main apiWriteFailsWorld 1 = some r ∧ r.exit = .code 1 ∧
      r.trace = pre ++
        [.writeFile (str "apps/api/.env")
          (apiEnv ⟨str "pw123", str "jwt", str "refresh", [], str "example.com",
            str "ops@example.com"⟩) 0o600,
         .stdout (str "\x1b[31m[✗] Failed to create apps/api/.env: permission denied\x1b[0m\n")] ++
        [.stdout (str "\n"), .stdout (str "Press Enter to exit..."), .waitEnter] ∧
      (∀ p ∈ [str "apps/web/.env.production"], ∀ data perm,
        Event.writeFile p data perm ∉ r.trace) ∧
      Event.stdout (str "Start deployment now? (y/n): ") ∉ r.trace ∧
      (∀ dir name args, Event.exec (some dir) name args ∉ r.trace) :=
  (write_failure_aborts apiWriteFailsWorld 1 (str "/srv/erp")
    ⟨str "pw123", str "jwt", str "refresh", [], str "example.com", str "ops@example.com"⟩
    (str "y\ny\n") _ rfl rfl rfl rfl rfl (str "permission denied")).2.1 rfl rfl

/-! ## Deployment: lemmas -/

theorem commandFailed_eq_printError (windows : Bool) (err : GoString) :
    commandFailed windows (some err) =
      [.stdout (printError windows (str "Command failed: " ++ err))] := by
  simp only [commandFailed, printError_text, List.append_assoc]

theorem commandFailed_not_notErrorLine (windows : Bool) (err : GoString) (e : Event)
    (h : commandFailed windows (some err) = [e]) : notErrorLine windows e = false := by
  simp only [commandFailed, List.cons.injEq, and_true] at h
  subst h
  cases windows <;> rfl

theorem deploy_segments_not_error (windows : Bool) (workDir : GoString) :
    (([.stdout (printInfo windows (str "Starting deployment...")),
        .stdout (printInfo windows (str "Starting database...")),
        .exec (some workDir) (str "docker")
          [str "compose", str "up", str "-d", str "postgres"]] ++
      ([.stdout (printInfo windows (str "Waiting for database to be ready (15 seconds)..."))] ++
        countdown 15 ++
        [.stdout (str "\n"),
         .stdout (printInfo windows (str "Running database migrations...")),
         .exec (some workDir) (str "docker")
          [str "compose", str "run", str "--rm", str "api", str "sh", str "-c",
           str "cd apps/api && npx prisma migrate deploy && npx prisma generate"]]) ++
      [.stdout (printInfo windows (str "Starting all services...")),
        .exec (some workDir) (str "docker") [str "compose", str "up", str "-d"]] ++
      [.stdout (printSuccess windows (str "Deployment complete!")),
       .stdout (str "\n"),
       .stdout (printInfo windows (str "Your application is starting up. Check status with:")),
       .stdout (str "  docker compose ps\n"),
       .stdout (str "  docker compose logs -f\n")] : List Event).all
      (notErrorLine windows)) = true := by
  cases windows <;> rfl

theorem deploy_commands (windows : Bool) (workDir : GoString)
    (result : Nat → Option GoString) :
    (deploy windows workDir result).filterMap Event.command =
      [(some workDir, [str "docker", str "compose", str "up", str "-d", str "postgres"])] ++
      List.replicate 15 (none, [str "sleep", str "1"]) ++
      [(some workDir, [str "docker", str "compose", str "run", str "--rm", str "api",
          str "sh", str "-c",
          str "cd apps/api && npx prisma migrate deploy && npx prisma generate"]),
       (some workDir, [str "docker", str "compose", str "up", str "-d"])] := by
  simp only [deploy, runCommand]
  cases result 0 <;> cases result 1 <;> cases result 2 <;> rfl

theorem deploy_error_line (windows : Bool) (workDir : GoString)
    (result : Nat → Option GoString) (k : Nat) (hk : k < 3) :
    ∀ e ∈ commandFailed windows (result k), e ∈ deploy windows workDir result := by
  intro e he
  cases hres : result k with
  | none => rw [hres] at he; simp [commandFailed] at he
  | some err =>
    rw [hres, commandFailed_eq_printError] at he
    simp only [List.mem_singleton] at he
    subst he
    have hcases : k = 0 ∨ k = 1 ∨ k = 2 := by omega
    rcases hcases with rfl | rfl | rfl <;> simp [deploy, runCommand, hres]

/-! ## Claim C9 -/

/-- C9: whatever the outcomes of its three commands, `deploy` runs the same
commands in the same order: `docker compose up -d postgres`, fifteen times
`sleep 1`, the one-shot `docker compose run --rm api sh -c "cd apps/api && npx
prisma migrate deploy && npx prisma generate"`, then `docker compose up -d`;
its trace is the trace of the run without failures with one error line
(error marker, `Command failed: `, the error text, newline) put in right
after each failing command; and a run of `main` in which the files are
written and the deployment prompt is accepted runs `deploy` right after that
prompt: its commands are `docker version`, then exactly this sequence, it
writes the error line of every failing command, and ends with exit code 0. -/
theorem deploy_fixed_sequence (windows : Bool) (workDir : GoString) :
    (∀ result : Nat → Option GoString,
      (deploy windows workDir result).filterMap Event.command =
        [(some workDir, [str "docker", str "compose", str "up", str "-d", str "postgres"])] ++
        List.replicate 15 (none, [str "sleep", str "1"]) ++
        [(some workDir, [str "docker", str "compose", str "run", str "--rm", str "api",
            str "sh", str "-c",
            str "cd apps/api && npx prisma migrate deploy && npx prisma generate"]),
         (some workDir, [str "docker", str "compose", str "up", str "-d"])]) ∧
    (∃ seg0 seg1 seg2 seg3 : List Event,
      (∀ e ∈ seg0 ++ seg1 ++ seg2 ++ seg3, ∀ err, commandFailed windows (some err) ≠ [e]) ∧
      seg0.getLast? = some (.exec (some workDir) (str "docker")
        [str "compose", str "up", str "-d", str "postgres"]) ∧
      seg1.getLast? = some (.exec (some workDir) (str "docker")
        [str "compose", str "run", str "--rm", str "api", str "sh", str "-c",
         str "cd apps/api && npx prisma migrate deploy && npx prisma generate"]) ∧
      seg2.getLast? = some (.exec (some workDir) (str "docker")
        [str "compose", str "up", str "-d"]) ∧
      ∀ result : Nat → Option GoString,
        deploy windows workDir result =
          seg0 ++ commandFailed windows (result 0) ++ seg1 ++
            commandFailed windows (result 1) ++ seg2 ++
            commandFailed windows (result 2) ++ seg3) ∧
    (∀ (w : World) (fuel : Nat) (c : Config) (rest : GoString) (out : List GoString),
      w.dockerVersion = none → w.getwd = .ok workDir → w.composeFileExists workDir = true →
      collect w fuel = some (.config c rest out) →
      (confirm w.toLowerTable rest (str "Continue with this configuration?")).1 = true →
      w.writeFile (str ".env") = none → w.writeFile (apiEnvPath w.windows) = none →
      w.writeFile (webEnvPath w.windows) = none →
      (confirm w.toLowerTable
        (confirm w.toLowerTable rest (str "Continue with this configuration?")).2.1
        (str "Start deployment now?")).1 = true →
      ∃ (r : Run) (pre : List Event),
        main w fuel = some r ∧ r.exit = .code 0 ∧
        pre.getLast? = some (.stdout (str "Start deployment now? (y/n): ")) ∧
        r.trace = pre ++ deploy w.windows workDir w.command ++ waitForExit ∧
        r.trace.filterMap Event.command =
          [(none, [str "docker", str "version"]),
           (some workDir, [str "docker", str "compose", str "up", str "-d", str "postgres"])] ++
          List.replicate 15 (none, [str "sleep", str "1"]) ++
          [(some workDir, [str "docker", str "compose", str "run", str "--rm", str "api",
              str "sh", str "-c",
              str "cd apps/api && npx prisma migrate deploy && npx prisma generate"]),
           (some workDir, [str "docker", str "compose", str "up", str "-d"])] ∧
        ∀ k, k < 3 → ∀ e ∈ commandFailed w.windows (w.command k), e ∈ r.trace) := by
  refine ⟨deploy_commands windows workDir, ?_, ?_⟩
  · refine ⟨[.stdout (printInfo windows (str "Starting deployment...")),
        .stdout (printInfo windows (str "Starting database...")),
        .exec (some workDir) (str "docker")
          [str "compose", str "up", str "-d", str "postgres"]],
      [.stdout (printInfo windows (str "Waiting for database to be ready (15 seconds)..."))] ++
        countdown 15 ++
        [.stdout (str "\n"),
         .stdout (printInfo windows (str "Running database migrations...")),
         .exec (some workDir) (str "docker")
          [str "compose", str "run", str "--rm", str "api", str "sh", str "-c",
           str "cd apps/api && npx prisma migrate deploy && npx prisma generate"]],
      [.stdout (printInfo windows (str "Starting all services...")),
        .exec (some workDir) (str "docker") [str "compose", str "up", str "-d"]],
      [.stdout (printSuccess windows (str "Deployment complete!")),
       .stdout (str "\n"),
       .stdout (printInfo windows (str "Your application is starting up. Check status with:")),
       .stdout (str "  docker compose ps\n"),
       .stdout (str "  docker compose logs -f\n")], ?_, rfl, ?_, rfl, ?_⟩
    · intro e he err heq
      have hall : ∀ e ∈ _, notErrorLine windows e = true := List.all_eq_true.mp
        (deploy_segments_not_error windows workDir)
      have h := hall _ he
      rw [commandFailed_not_notErrorLine windows err e heq] at h
      exact Bool.false_ne_true h
    · simp [countdown]
    · intro result
      have hc : ∀ o : Option GoString, commandFailed windows o =
          match o with
          | some err => [.stdout (printError windows (str "Command failed: " ++ err))]
          | none => [] := by
        intro o
        cases o with
        | none => rfl
        | some err => exact commandFailed_eq_printError windows err
      simp only [deploy, runCommand, hc]
      cases result 0 <;> cases result 1 <;> cases result 2 <;>
        simp only [List.append_assoc, List.cons_append, List.nil_append, List.append_nil]
  · intro w fuel c rest out hdocker hwd hmarker hcollect hconfirm hw1 hw2 hw3 haccept
    obtain ⟨t, _, hcmd, hmain⟩ :=
      main_at_confirmation w fuel workDir c rest out hdocker hwd hmarker hcollect
    simp only [hconfirm, Bool.true_eq_false, if_false] at hmain
    have hout : (confirm w.toLowerTable
        (confirm w.toLowerTable rest (str "Continue with this configuration?")).2.1
        (str "Start deployment now?")).2.2 = [deployPrompt] := rfl
    simp only [writeFiles, hw1, hw2, hw3, finish, haccept, if_true, hout] at hmain
    refine ⟨_, t ++ [.stdout (printInfo w.windows (str "Creating environment files...")),
        .writeFile (str ".env") (mainEnv c) 0o600,
        .mkdirAll (filepathJoin w.windows [str "apps", str "api"]) 0o755,
        .writeFile (apiEnvPath w.windows) (apiEnv c) 0o600,
        .mkdirAll (filepathJoin w.windows [str "apps", str "web"]) 0o755,
        .writeFile (webEnvPath w.windows) (webEnv c) 0o600,
        .stdout (printSuccess w.windows (str "Environment files created")),
        .stdout (str "\n"), .stdout deployPrompt], hmain, rfl, ?_, ?_, ?_, ?_⟩
    · have hp : deployPrompt = str "Start deployment now? (y/n): " := by decide
      rw [List.getLast?_append, hp]
      rfl
    · simp only [List.append_assoc, List.cons_append, List.nil_append, List.map_cons,
        List.map_nil]
    · simp only [List.filterMap_append, hcmd, deploy_commands]
      rfl
    · intro k hk e he
      have := deploy_error_line w.windows workDir w.command k hk e he
      simp only [List.mem_append]
      exact Or.inl (Or.inr this)

theorem deploy_fixed_sequence_witness :
    ∃ r : Run, main migrationFailsWorld 1 = some r ∧ r.exit = .code 0 ∧
      r.trace.filterMap Event.command =
        [(none, [str "docker", str "version"]),
         (some (str "/srv/erp"),
          [str "docker", str "compose", str "up", str "-d", str "postgres"])] ++
        List.replicate 15 (none, [str "sleep", str "1"]) ++
        [(some (str "/srv/erp"), [str "docker", str "compose", str "run", str "--rm",
            str "api", str "sh", str "-c",
            str "cd apps/api && npx prisma migrate deploy && npx prisma generate"]),
         (some (str "/srv/erp"), [str "docker", str "compose", str "up", str "-d"])] ∧
      Event.stdout (str "\x1b[31m[✗] Command failed: exit status 1\x1b[0m\n") ∈ r.trace ∧
      [Event.exec (some (str "/srv/erp")) (str "docker")
          [str "compose", str "run", str "--rm", str "api", str "sh", str "-c",
           str "cd apps/api && npx prisma migrate deploy && npx prisma generate"],
        Event.stdout (str "\x1b[31m[✗] Command failed: exit status 1\x1b[0m\n"),
        Event.stdout (str "\x1b[34m[ℹ] Starting all services...\x1b[0m\n"),
        Event.exec (some (str "/srv/erp")) (str "docker")
          [str "compose", str "up", str "-d"]] <:+: r.trace := by
  obtain ⟨r, pre, h1, h2, _, h3, h4, h5⟩ :=
    (deploy_fixed_sequence false (str "/srv/erp")).2.2 migrationFailsWorld 1
      ⟨str "pw123", str "jwt", str "refresh", [], str "example.com", str "ops@example.com"⟩
      (str "y\nYes\n") _ rfl rfl rfl rfl rfl rfl rfl rfl rfl
  refine ⟨r, h1, h2, h4, h5 1 (by decide) _ (by decide), ?_⟩
  refine ⟨pre ++ (deploy false (str "/srv/erp") migrationFailsWorld.command).take 36,
    (deploy false (str "/srv/erp") migrationFailsWorld.command).drop 40 ++ waitForExit, ?_⟩
  rw [h3]
  have hd : (deploy false (str "/srv/erp") migrationFailsWorld.command).take 36 ++
      [Event.exec (some (str "/srv/erp")) (str "docker")
          [str "compose", str "run", str "--rm", str "api", str "sh", str "-c",
           str "cd apps/api && npx prisma migrate deploy && npx prisma generate"],
        Event.stdout (str "\x1b[31m[✗] Command failed: exit status 1\x1b[0m\n"),
        Event.stdout (str "\x1b[34m[ℹ] Starting all services...\x1b[0m\n"),
        Event.exec (some (str "/srv/erp")) (str "docker")
          [str "compose", str "up", str "-d"]] ++
      (deploy false (str "/srv/erp") migrationFailsWorld.command).drop 40 =
      deploy false (str "/srv/erp") migrationFailsWorld.command := by decide
  show (pre ++ (deploy false (str "/srv/erp") migrationFailsWorld.command).take 36) ++ _ ++
      ((deploy false (str "/srv/erp") migrationFailsWorld.command).drop 40 ++ waitForExit) =
    pre ++ deploy false (str "/srv/erp") migrationFailsWorld.command ++ waitForExit
  conv_rhs => rw [← hd]
  simp only [List.append_assoc]

end SetupTool
